import Mathlib

/-!
Shallow embedding of the `6emu` 8086 emulator (src/src/cpu.rs, src/src/mem.rs,
src/src/regs.rs) and proofs about the claims of its specification.

Machine integers are modelled as `Nat` with explicit `% 2^w` wherever the Rust
code truncates (casts `as u8` / `as u16`, wrapping arithmetic, assignment to a
typed register field).  Signed views (`as i8` / `as i16`) are modelled through
`Int` with an explicit two's-complement conversion.  Rust panics
(`panic!`, `unreachable!`, `todo!`, failing `read_exact`, division by zero)
are modelled by `Option`: a function returns `none` exactly when the Rust
code would abort the process.

A few items are used by src/src/cpu.rs but missing from the copies of
regs.rs / mem.rs in src/ (the repository snapshot is inconsistent); they are
modelled from the spec and marked `Modelled from the spec:` below.
-/

/-- Truncation to 8 bits, the `as u8` cast of Rust. -/
def w8 (n : Nat) : Nat := n % 256

/-- Truncation to 16 bits, the `as u16` cast of Rust. -/
def w16 (n : Nat) : Nat := n % 65536

/-- 16-bit wrapping addition (`u16::wrapping_add`, and `+` on `u16` in release mode). -/
def add16 (a b : Nat) : Nat := (a + b) % 65536

/-- 16-bit wrapping subtraction (`u16::wrapping_sub`). -/
def sub16 (a b : Nat) : Nat := (a % 65536 + (65536 - b % 65536)) % 65536

/-- 8-bit wrapping addition (`u8::wrapping_add`). -/
def add8 (a b : Nat) : Nat := (a + b) % 256

/-- 8-bit wrapping subtraction (`u8::wrapping_sub`). -/
def sub8 (a b : Nat) : Nat := (a % 256 + (256 - b % 256)) % 256

/-- Two's-complement view of the low 8 bits, the `as i8` cast of Rust. -/
def toI8 (v : Nat) : Int := if v % 256 < 128 then (v % 256 : Int) else (v % 256 : Int) - 256

/-- Two's-complement view of the low 16 bits, the `as i16` cast of Rust. -/
def toI16 (v : Nat) : Int :=
  if v % 65536 < 32768 then (v % 65536 : Int) else (v % 65536 : Int) - 65536

/-- `(a as i8).overflowing_add(b as i8).1`: signed 8-bit overflow of the sum. -/
def ovfAddI8 (a b : Nat) : Bool := decide (toI8 a + toI8 b < -128 ∨ 127 < toI8 a + toI8 b)

/-- `(a as i8).overflowing_sub(b as i8).1`: signed 8-bit overflow of the difference. -/
def ovfSubI8 (a b : Nat) : Bool := decide (toI8 a - toI8 b < -128 ∨ 127 < toI8 a - toI8 b)

/-- `(a as i16).overflowing_add(b as i16).1`. -/
def ovfAddI16 (a b : Nat) : Bool :=
  decide (toI16 a + toI16 b < -32768 ∨ 32767 < toI16 a + toI16 b)

/-- `(a as i16).overflowing_sub(b as i16).1`. -/
def ovfSubI16 (a b : Nat) : Bool :=
  decide (toI16 a - toI16 b < -32768 ∨ 32767 < toI16 a - toI16 b)

/-- `(a as u8).overflowing_add(b as u8).1`: unsigned 8-bit carry. -/
def ovfAddU8 (a b : Nat) : Bool := decide (256 ≤ a % 256 + b % 256)

/-- `(a as u8).overflowing_sub(b as u8).1`: unsigned 8-bit borrow. -/
def ovfSubU8 (a b : Nat) : Bool := decide (a % 256 < b % 256)

/-- `(a as u16).overflowing_add(b as u16).1`. -/
def ovfAddU16 (a b : Nat) : Bool := decide (65536 ≤ a % 65536 + b % 65536)

/-- `(a as u16).overflowing_sub(b as u16).1`. -/
def ovfSubU16 (a b : Nat) : Bool := decide (a % 65536 < b % 65536)

/-- The bit-counting loop inside `Cpu::even_parity`, with a fuel argument for
structural recursion; `fuel = n` always suffices since `n` halves each step. -/
def bitSumAux : Nat → Nat → Nat
  | 0, _ => 0
  | fuel + 1, n => if n = 0 then 0 else n % 2 + bitSumAux fuel (n / 2)

/-- Number of set bits, the loop inside `Cpu::even_parity`. -/
def bitSum (n : Nat) : Nat := bitSumAux n n

/-- `Cpu::even_parity`: true iff the number of set bits is even.
The Rust parameter has type `u8`; call sites pass the low byte. -/
def even_parity (v : Nat) : Bool := bitSum v % 2 == 0

namespace Flags

/-! The FLAGS word of src/src/regs.rs, stored as the packed 16-bit word `bi`.
Every mask is transcribed literally from the source (note that `clear_af`
uses a 15-digit literal and therefore also clears bit 15, as in the source). -/

/-- `Flags::clear_cf`. -/
def clear_cf (f : Nat) : Nat := f &&& 0b1111111111111110

/-- `Flags::set_cf` (`bi |= !0b1111111111111110`). -/
def set_cf (f : Nat) : Nat := f ||| 0b0000000000000001

/-- `Flags::cf`. -/
def cf (f : Nat) : Bool := f &&& 0b0000000000000001 != 0

/-- `Flags::clear_pf`. -/
def clear_pf (f : Nat) : Nat := f &&& 0b1111111111111011

/-- `Flags::set_pf`. -/
def set_pf (f : Nat) : Nat := f ||| 0b0000000000000100

/-- `Flags::pf`. -/
def pf (f : Nat) : Bool := f &&& 0b0000000000000100 != 0

/-- `Flags::clear_af`; the source mask `0b111111111101111` has only 15 digits,
so this also clears bit 15, exactly as the source does. -/
def clear_af (f : Nat) : Nat := f &&& 0b111111111101111

/-- `Flags::set_af` (`bi |= !0b1111111111101111`). -/
def set_af (f : Nat) : Nat := f ||| 0b0000000000010000

/-- `Flags::af`. -/
def af (f : Nat) : Bool := f &&& 0b0000000000010000 != 0

/-- `Flags::clear_zf`. -/
def clear_zf (f : Nat) : Nat := f &&& 0b1111111110111111

/-- `Flags::set_zf`. -/
def set_zf (f : Nat) : Nat := f ||| 0b0000000001000000

/-- `Flags::zf`. -/
def zf (f : Nat) : Bool := f &&& 0b0000000001000000 != 0

/-- `Flags::clear_sf`. -/
def clear_sf (f : Nat) : Nat := f &&& 0b1111111101111111

/-- `Flags::set_sf`. -/
def set_sf (f : Nat) : Nat := f ||| 0b0000000010000000

/-- `Flags::sf`. -/
def sf (f : Nat) : Bool := f &&& 0b0000000010000000 != 0

/-- `Flags::clear_tf`. -/
def clear_tf (f : Nat) : Nat := f &&& 0b1111111011111111

/-- `Flags::set_tf`. -/
def set_tf (f : Nat) : Nat := f ||| 0b0000000100000000

/-- `Flags::tf`. -/
def tf (f : Nat) : Bool := f &&& 0b0000000100000000 != 0

/-- `Flags::clear_if`. -/
def clear_if (f : Nat) : Nat := f &&& 0b1111110111111111

/-- `Flags::set_if`. -/
def set_if (f : Nat) : Nat := f ||| 0b0000001000000000

/-- `Flags::i_f`. -/
def i_f (f : Nat) : Bool := f &&& 0b0000001000000000 != 0

/-- `Flags::clear_df`. -/
def clear_df (f : Nat) : Nat := f &&& 0b1111101111111111

/-- `Flags::set_df`. -/
def set_df (f : Nat) : Nat := f ||| 0b0000010000000000

/-- `Flags::df`. -/
def df (f : Nat) : Bool := f &&& 0b0000010000000000 != 0

/-- `Flags::clear_of`. -/
def clear_of (f : Nat) : Nat := f &&& 0b1111011111111111

/-- `Flags::set_of`. -/
def set_of (f : Nat) : Nat := f ||| 0b0000100000000000

/-- `Flags::of`. -/
def of (f : Nat) : Bool := f &&& 0b0000100000000000 != 0

/-- `Flags::clear_arith`: clears AF, CF, SF, ZF, OF, PF in the source's order. -/
def clear_arith (f : Nat) : Nat :=
  clear_pf (clear_of (clear_zf (clear_sf (clear_cf (clear_af f)))))

/-- Modelled from the spec: `Flags::to_u16` (used by cpu.rs but missing from
the regs.rs in src/): whole-word load of the packed FLAGS word. -/
def to_u16 (f : Nat) : Nat := f

/-- Modelled from the spec: `Flags::set_from_u16` (used by cpu.rs but missing
from the regs.rs in src/): whole-word store of the packed FLAGS word. -/
def set_from_u16 (v : Nat) : Nat := v % 65536

end Flags

/-- The register file of src/src/regs.rs. `flags` is the packed FLAGS word.
`ip` is used by cpu.rs but missing from the regs.rs in src/; modelled from
the spec: a 16-bit instruction pointer. The segment fields hold the
architectural 16-bit segment values (shifted left by 4 on linearization). -/
structure Registers where
  ax : Nat
  bx : Nat
  cx : Nat
  dx : Nat
  si : Nat
  di : Nat
  sp : Nat
  bp : Nat
  es : Nat
  ds : Nat
  cs : Nat
  ss : Nat
  ip : Nat
  flags : Nat

namespace Registers

/-- `Registers::get_ax`. -/
def get_ax (r : Registers) : Nat := r.ax

/-- `Registers::set_ax` (parameter typed `u16`). -/
def set_ax (r : Registers) (v : Nat) : Registers := { r with ax := v % 65536 }

/-- `Registers::get_al` (`(ax & 0xff) as u8`). -/
def get_al (r : Registers) : Nat := r.ax &&& 0xff

/-- `Registers::set_al` (parameter typed `u8`; keeps the high byte). -/
def set_al (r : Registers) (v : Nat) : Registers :=
  { r with ax := (r.ax &&& 0xff00) ||| (v % 256) }

/-- `Registers::get_ah` (`(ax >> 8) as u8`). -/
def get_ah (r : Registers) : Nat := (r.ax >>> 8) % 256

/-- `Registers::set_ah` (parameter typed `u8`; keeps the low byte). -/
def set_ah (r : Registers) (v : Nat) : Registers :=
  { r with ax := (r.ax &&& 0xff) ||| ((v % 256) <<< 8) }

/-- `Registers::get_bx`. -/
def get_bx (r : Registers) : Nat := r.bx

/-- `Registers::set_bx`. -/
def set_bx (r : Registers) (v : Nat) : Registers := { r with bx := v % 65536 }

/-- `Registers::get_bl`. -/
def get_bl (r : Registers) : Nat := r.bx &&& 0xff

/-- `Registers::set_bl`. -/
def set_bl (r : Registers) (v : Nat) : Registers :=
  { r with bx := (r.bx &&& 0xff00) ||| (v % 256) }

/-- `Registers::get_bh`. -/
def get_bh (r : Registers) : Nat := (r.bx >>> 8) % 256

/-- `Registers::set_bh`. -/
def set_bh (r : Registers) (v : Nat) : Registers :=
  { r with bx := (r.bx &&& 0xff) ||| ((v % 256) <<< 8) }

/-- `Registers::get_cx`. -/
def get_cx (r : Registers) : Nat := r.cx

/-- `Registers::set_cx`. -/
def set_cx (r : Registers) (v : Nat) : Registers := { r with cx := v % 65536 }

/-- `Registers::get_cl`. -/
def get_cl (r : Registers) : Nat := r.cx &&& 0xff

/-- `Registers::set_cl`. -/
def set_cl (r : Registers) (v : Nat) : Registers :=
  { r with cx := (r.cx &&& 0xff00) ||| (v % 256) }

/-- `Registers::get_ch`. -/
def get_ch (r : Registers) : Nat := (r.cx >>> 8) % 256

/-- `Registers::set_ch`. -/
def set_ch (r : Registers) (v : Nat) : Registers :=
  { r with cx := (r.cx &&& 0xff) ||| ((v % 256) <<< 8) }

/-- `Registers::get_dx`. -/
def get_dx (r : Registers) : Nat := r.dx

/-- `Registers::set_dx`. -/
def set_dx (r : Registers) (v : Nat) : Registers := { r with dx := v % 65536 }

/-- `Registers::get_dl`. -/
def get_dl (r : Registers) : Nat := r.dx &&& 0xff

/-- `Registers::set_dl`. -/
def set_dl (r : Registers) (v : Nat) : Registers :=
  { r with dx := (r.dx &&& 0xff00) ||| (v % 256) }

/-- `Registers::get_dh`. -/
def get_dh (r : Registers) : Nat := (r.dx >>> 8) % 256

/-- `Registers::set_dh`. -/
def set_dh (r : Registers) (v : Nat) : Registers :=
  { r with dx := (r.dx &&& 0xff) ||| ((v % 256) <<< 8) }

/-- `Registers::get_si`. -/
def get_si (r : Registers) : Nat := r.si

/-- `Registers::set_si`. -/
def set_si (r : Registers) (v : Nat) : Registers := { r with si := v % 65536 }

/-- `Registers::get_di`. -/
def get_di (r : Registers) : Nat := r.di

/-- `Registers::set_di`. -/
def set_di (r : Registers) (v : Nat) : Registers := { r with di := v % 65536 }

/-- `Registers::get_bp`. -/
def get_bp (r : Registers) : Nat := r.bp

/-- `Registers::set_bp`. -/
def set_bp (r : Registers) (v : Nat) : Registers := { r with bp := v % 65536 }

/-- `Registers::get_sp`. -/
def get_sp (r : Registers) : Nat := r.sp

/-- `Registers::set_sp`. -/
def set_sp (r : Registers) (v : Nat) : Registers := { r with sp := v % 65536 }

/-- `Registers::get_ss`: the linear stack-segment base (`ss << 4`). -/
def get_ss (r : Registers) : Nat := r.ss <<< 4

/-- `Registers::set_ss`: stores a linear base (asserted 16-byte aligned in the
source) shifted back down. -/
def set_ss (r : Registers) (v : Nat) : Registers := { r with ss := v >>> 4 }

/-- `Registers::get_cs`. -/
def get_cs (r : Registers) : Nat := r.cs <<< 4

/-- `Registers::set_cs`. -/
def set_cs (r : Registers) (v : Nat) : Registers := { r with cs := v >>> 4 }

/-- `Registers::get_ds`. -/
def get_ds (r : Registers) : Nat := r.ds <<< 4

/-- `Registers::set_ds`. -/
def set_ds (r : Registers) (v : Nat) : Registers := { r with ds := v >>> 4 }

/-- `Registers::get_es`. -/
def get_es (r : Registers) : Nat := r.es <<< 4

/-- `Registers::set_es`. -/
def set_es (r : Registers) (v : Nat) : Registers := { r with es := v >>> 4 }

/-- `Registers::default`: all registers zero, FLAGS = 2 (reserved bit 1). -/
def default : Registers :=
  { ax := 0, bx := 0, cx := 0, dx := 0, si := 0, di := 0, sp := 0, bp := 0
    es := 0, ds := 0, cs := 0, ss := 0, ip := 0, flags := 2 }

end Registers

/-- The memory of src/src/mem.rs: a `Cursor<Vec<u8>>`. `pos` is the cursor,
`len` the current vector length, `data` the byte contents (always 0 beyond
`len`, matching the zero-padding behaviour of `Cursor<Vec<u8>>` writes). -/
structure Mem where
  pos : Nat
  len : Nat
  data : Nat → Nat

namespace Mem

/-- `Mem::new`: empty vector, cursor at 0. -/
def new : Mem := { pos := 0, len := 0, data := fun _ => 0 }

/-- `Mem::read_u8`; `none` models the `expect` panic when the cursor is at or
beyond the end of the vector. -/
def read_u8 (m : Mem) : Option (Nat × Mem) :=
  if m.pos + 1 ≤ m.len then some (m.data m.pos, { m with pos := m.pos + 1 }) else none

/-- `Mem::read_u16` (little-endian). -/
def read_u16 (m : Mem) : Option (Nat × Mem) :=
  if m.pos + 2 ≤ m.len then
    some (m.data m.pos + 256 * m.data (m.pos + 1), { m with pos := m.pos + 2 })
  else none

/-- `Mem::write_u8`: writes one byte at the cursor, extending the vector if
needed (the gap, if any, stays zero), and advances the cursor. -/
def write_u8 (m : Mem) (v : Nat) : Mem :=
  { pos := m.pos + 1
    len := max m.len (m.pos + 1)
    data := fun i => if i = m.pos then v % 256 else m.data i }

/-- `Mem::write_u16` (little-endian `to_le_bytes`). -/
def write_u16 (m : Mem) (v : Nat) : Mem :=
  { pos := m.pos + 2
    len := max m.len (m.pos + 2)
    data := fun i =>
      if i = m.pos + 1 then (v / 256) % 256
      else if i = m.pos then v % 256
      else m.data i }

/-- `Mem::seek_to`. -/
def seek_to (m : Mem) (v : Nat) : Mem := { m with pos := v }

end Mem

/-- `Operand` of src/src/cpu.rs: memory operands carry the resolved physical
address and the pre-segmentation offset. -/
inductive Operand where
  | Mem16 : Nat → Nat → Operand
  | Mem8 : Nat → Nat → Operand
  | Reg8 : Nat → Operand
  | Reg16 : Nat → Operand
  | Imm8 : Nat → Operand
  | Imm16 : Nat → Operand
  | Seg : Nat → Operand
deriving DecidableEq

/-- `Opcode` of src/src/cpu.rs, transcribed constructor for constructor. -/
inductive Opcode where
  | Add | PushEs | PopEs | Or | PushCs | Adc | PushSs | PopSs | Sbb | Sub | Cmp
  | PushDs | PopDs | And | Xor | OverrideEs | OverrideCs | OverrideSs | OverrideDs
  | Daa | Aas | Das | Aaa
  | IncAx | IncCx | IncBx | IncDx | IncSp | IncBp | IncSi | IncDi
  | DecAx | DecCx | DecBx | DecDx | DecSp | DecBp | DecSi | DecDi
  | PushAx | PushCx | PushBx | PushDx | PushSp | PushBp | PushSi | PushDi
  | PopAx | PopCx | PopBx | PopDx | PopSp | PopBp | PopSi | PopDi
  | Jo | Jno | Jb | Jnb | Jz | Jnz | Jbe | Jnbe | Js | Jns | Jp | Jnp
  | Jl | Jnl | Jle | Jnle
  | Test | Xchg | Mov | Lea | Pop | Push | Cbw | Cwd | CallFar | Wait
  | Pushf | Popf | Lahf | Sahf
  | Movsb | Movsw | Cmpsb | Cmpsw | Stosb | Stosw | Lodsb | Lodsw | Scasb | Scasw
  | Ret | Retf | Les | Lds | Int | Into | Iret
  | Rol | Ror | Rcl | Rcr | Shl | Shr | Sar
  | Aad | Aam | Xlat | Loop | Loope | Loopne | Jcxz
  | In | Out | Lock | Rep | Repne | Hlt | Cmc
  | CallNear | JmpNear | JmpFar | Not | Neg | Mul | Imul | Div | Idiv
  | Clc | Stc | Cli | Sti | Cld | Std | Inc
deriving DecidableEq

/-- `BitOp` of src/src/cpu.rs. -/
inductive BitOp where
  | And | Xor | Or

/-- `Instruction` of src/src/cpu.rs. -/
structure Instruction where
  opcode : Opcode
  dest : Operand
  src : Operand
deriving DecidableEq

/-- `Segment` of src/src/cpu.rs. -/
inductive Segment where
  | Ds | Es | Ss | Cs
deriving DecidableEq

/-- `Cpu` of src/src/cpu.rs. -/
structure Cpu where
  regs : Registers
  mem : Mem
  prog_size : Nat
  seg_override : Option Segment
  halt : Bool

/-- `Byte1::word` (`bp & 0b1 > 0`). -/
def Byte1.word (b : Nat) : Bool := b &&& 0b1 != 0

/-- `Byte1::reg_is_dest` (`bp & 0b10 > 0`). -/
def Byte1.reg_is_dest (b : Nat) : Bool := b &&& 0b10 != 0

/-- `Byte1::opcode` (`bp >> 2`). -/
def Byte1.opcode (b : Nat) : Nat := b >>> 2

/-- Modelled from the spec: `Byte1::set_word` (used by cpu.rs but missing from
the mem.rs in src/): forces the width bit (bit 0) so the operand is decoded
as a word (used for LES/LDS/`MOV r/m, sreg`/POP whose operands are always
16-bit). -/
def Byte1.set_word (b : Nat) : Nat := b ||| 0b1

/-- `Byte2::modd` (`bp >> 6`). -/
def Byte2.modd (b : Nat) : Nat := b >>> 6

/-- `Byte2::rm` (`bp & 0b111`). -/
def Byte2.rm (b : Nat) : Nat := b &&& 0b111

/-- `Byte2::reg` (`(bp >> 3) & 0b111`). -/
def Byte2.reg (b : Nat) : Nat := (b >>> 3) &&& 0b111

namespace Cpu

/-- `Cpu::init`. -/
def init : Cpu :=
  { regs := { Registers.default with cs := 0xffff, flags := Flags.set_from_u16 2 }
    mem := Mem.new
    prog_size := 0
    seg_override := none
    halt := false }

/-- `Cpu::test_mode`. -/
def test_mode (s : Cpu) : Cpu :=
  { s with regs := { (((s.regs.set_ss 4096)) ) with cs := 0, ds := 0, es := 0, ip := 0, sp := 4095 } }

/-- `Cpu::get_seg_reg`; the panic arm is unreachable because `pos & 0b11 < 4`. -/
def get_seg_reg (s : Cpu) (pos : Nat) : Nat :=
  match pos &&& 0b11 with
  | 0 => s.regs.es
  | 1 => s.regs.cs
  | 2 => s.regs.ss
  | 3 => s.regs.ds
  | _ => 0

/-- `Cpu::set_seg_reg`; the panic arm is unreachable because `pos & 0b11 < 4`. -/
def set_seg_reg (s : Cpu) (pos val : Nat) : Cpu :=
  match pos &&& 0b11 with
  | 0 => { s with regs := { s.regs with es := val % 65536 } }
  | 1 => { s with regs := { s.regs with cs := val % 65536 } }
  | 2 => { s with regs := { s.regs with ss := val % 65536 } }
  | 3 => { s with regs := { s.regs with ds := val % 65536 } }
  | _ => s

/-- `Cpu::get_reg`; `none` models the panic on a register id outside 0..7.
For byte registers the result is the `u8` value widened to `u16`. -/
def get_reg (s : Cpu) (id : Nat) (word : Bool) : Option Nat :=
  if word then
    match id with
    | 0 => some s.regs.get_ax
    | 3 => some s.regs.get_bx
    | 2 => some s.regs.get_dx
    | 6 => some s.regs.get_si
    | 4 => some s.regs.get_sp
    | 5 => some s.regs.get_bp
    | 7 => some s.regs.get_di
    | 1 => some s.regs.get_cx
    | _ => none
  else
    match id with
    | 0 => some s.regs.get_al
    | 3 => some s.regs.get_bl
    | 2 => some s.regs.get_dl
    | 6 => some s.regs.get_dh
    | 4 => some s.regs.get_ah
    | 5 => some s.regs.get_ch
    | 7 => some s.regs.get_bh
    | 1 => some s.regs.get_cl
    | _ => none

/-- `Cpu::set_reg`; `none` models the panic on a register id outside 0..7.
The source casts the value (`as u16` / `as u8`) before storing. -/
def set_reg (s : Cpu) (id : Nat) (word : Bool) (val : Nat) : Option Cpu :=
  if word then
    match id with
    | 0 => some { s with regs := s.regs.set_ax val }
    | 3 => some { s with regs := s.regs.set_bx val }
    | 2 => some { s with regs := s.regs.set_dx val }
    | 6 => some { s with regs := s.regs.set_si val }
    | 4 => some { s with regs := s.regs.set_sp val }
    | 5 => some { s with regs := s.regs.set_bp val }
    | 7 => some { s with regs := s.regs.set_di val }
    | 1 => some { s with regs := s.regs.set_cx val }
    | _ => none
  else
    match id with
    | 0 => some { s with regs := s.regs.set_al val }
    | 3 => some { s with regs := s.regs.set_bl val }
    | 2 => some { s with regs := s.regs.set_dl val }
    | 6 => some { s with regs := s.regs.set_dh val }
    | 4 => some { s with regs := s.regs.set_ah val }
    | 5 => some { s with regs := s.regs.set_ch val }
    | 7 => some { s with regs := s.regs.set_bh val }
    | 1 => some { s with regs := s.regs.set_cl val }
    | _ => none

/-- `Cpu::ea`: linear address of `seg:offt`.  Note: no 20-bit mask here,
exactly as in the source. -/
def ea (s : Cpu) (seg : Segment) (offt : Nat) : Nat :=
  match seg with
  | Segment.Ds => s.regs.get_ds + offt
  | Segment.Es => s.regs.get_es + offt
  | Segment.Ss => s.regs.get_ss + offt
  | Segment.Cs => s.regs.get_cs + offt

/-- `Cpu::get_segment_offset`: uses the pending segment override (without
clearing it) in place of the default segment. -/
def get_segment_offset (s : Cpu) (seg : Segment) (offt : Nat) : Nat :=
  match s.seg_override with
  | some ov => s.ea ov offt
  | none => s.ea seg offt

/-- The repeated `if b1.word() { Mem16(..) } else { Mem8(..) }` of
`Cpu::calc_op_displacement`. -/
def memOperand (s : Cpu) (b1 : Nat) (seg : Segment) (offt : Nat) : Operand :=
  if Byte1.word b1 then Operand.Mem16 (s.get_segment_offset seg offt) offt
  else Operand.Mem8 (s.get_segment_offset seg offt) offt

/-- `Cpu::code_addr`. -/
def code_addr (s : Cpu) (offset : Nat) : Nat := (s.regs.get_cs + offset % 65536) &&& 0xfffff

/-- `Cpu::stack_addr`. -/
def stack_addr (s : Cpu) (offset : Nat) : Nat := (s.regs.get_ss + offset % 65536) &&& 0xfffff

/-- `Cpu::extra_addr`. -/
def extra_addr (s : Cpu) (offset : Nat) : Nat := (s.regs.get_es + offset % 65536) &&& 0xfffff

/-- `Cpu::data_addr`. -/
def data_addr (s : Cpu) (offset : Nat) : Nat := (s.regs.get_ds + offset % 65536) &&& 0xfffff

/-- `Cpu::calc_op_displacement`: resolves a mod/reg/rm memory operand.
`none` models the unreachable arms (`mod = 3` or `rm > 7`).
Note that with `mod = 1` the displacement byte is widened with `as u16`
(zero-extension), exactly as in the source. -/
def calc_op_displacement (s : Cpu) (b1 b2 : Nat) : Option (Operand × Cpu) :=
  match Byte2.modd b2 with
  | 0 =>
    match Byte2.rm b2 with
    | 0 => some (s.memOperand b1 Segment.Ds (add16 s.regs.get_bx s.regs.get_si), s)
    | 1 => some (s.memOperand b1 Segment.Ds (add16 s.regs.get_bx s.regs.get_di), s)
    | 2 => some (s.memOperand b1 Segment.Ss (add16 s.regs.get_bp s.regs.get_si), s)
    | 3 => some (s.memOperand b1 Segment.Ss (add16 s.regs.get_bp s.regs.get_di), s)
    | 4 => some (s.memOperand b1 Segment.Ds s.regs.get_si, s)
    | 5 => some (s.memOperand b1 Segment.Ds s.regs.get_di, s)
    | 6 =>
      match s.mem.read_u16 with
      | none => none
      | some (offt, m) =>
        let s' := { s with mem := m }
        some (s'.memOperand b1 Segment.Ds offt, s')
    | 7 => some (s.memOperand b1 Segment.Ds s.regs.get_bx, s)
    | _ => none
  | 1 =>
    match s.mem.read_u8 with
    | none => none
    | some (disp, m) =>
      let s' := { s with mem := m }
      match Byte2.rm b2 with
      | 0 => some (s'.memOperand b1 Segment.Ds (add16 (add16 s.regs.get_bx s.regs.get_si) disp), s')
      | 1 => some (s'.memOperand b1 Segment.Ds (add16 (add16 s.regs.get_bx s.regs.get_di) disp), s')
      | 2 => some (s'.memOperand b1 Segment.Ss (add16 (add16 s.regs.get_bp s.regs.get_si) disp), s')
      | 3 => some (s'.memOperand b1 Segment.Ss (add16 (add16 s.regs.get_bp s.regs.get_di) disp), s')
      | 4 => some (s'.memOperand b1 Segment.Ds (add16 s.regs.get_si disp), s')
      | 5 => some (s'.memOperand b1 Segment.Ds (add16 s.regs.get_di disp), s')
      | 6 => some (s'.memOperand b1 Segment.Ss (add16 s.regs.get_bp disp), s')
      | 7 => some (s'.memOperand b1 Segment.Ds (add16 s.regs.get_bx disp), s')
      | _ => none
  | 2 =>
    match s.mem.read_u16 with
    | none => none
    | some (disp, m) =>
      let s' := { s with mem := m }
      match Byte2.rm b2 with
      | 0 => some (s'.memOperand b1 Segment.Ds (add16 (add16 s.regs.get_bx s.regs.get_si) disp), s')
      | 1 => some (s'.memOperand b1 Segment.Ds (add16 (add16 s.regs.get_bx s.regs.get_di) disp), s')
      | 2 => some (s'.memOperand b1 Segment.Ss (add16 (add16 s.regs.get_bp s.regs.get_si) disp), s')
      | 3 => some (s'.memOperand b1 Segment.Ss (add16 (add16 s.regs.get_bp s.regs.get_di) disp), s')
      | 4 => some (s'.memOperand b1 Segment.Ds (add16 s.regs.get_si disp), s')
      | 5 => some (s'.memOperand b1 Segment.Ds (add16 s.regs.get_di disp), s')
      | 6 =>
        match s'.mem.read_u16 with
        | none => none
        | some (offt, m2) =>
          let s2 := { s' with mem := m2 }
          some (s2.memOperand b1 Segment.Ds offt, s2)
      | 7 => some (s'.memOperand b1 Segment.Ds (add16 s.regs.get_bx disp), s')
      | _ => none
  | _ => none

/-- `Cpu::addr_mod`. -/
def addr_mod (s : Cpu) (b1 b2 : Nat) : Option (Operand × Cpu) :=
  match Byte2.modd b2 with
  | 3 =>
    if Byte1.word b1 then some (Operand.Reg16 (Byte2.rm b2), s)
    else some (Operand.Reg8 (Byte2.rm b2), s)
  | _ => s.calc_op_displacement b1 b2

/-- `Cpu::operand_value`: reads the value of an operand, preserving the memory
cursor around memory accesses. -/
def operand_value (s : Cpu) (op : Operand) : Option (Nat × Cpu) :=
  let pos := s.mem.pos
  match op with
  | Operand.Mem16 i _ =>
    match (s.mem.seek_to i).read_u16 with
    | none => none
    | some (v, m) => some (v, { s with mem := m.seek_to pos })
  | Operand.Mem8 i _ =>
    match (s.mem.seek_to i).read_u8 with
    | none => none
    | some (v, m) => some (v, { s with mem := m.seek_to pos })
  | Operand.Reg8 i =>
    match s.get_reg i false with
    | none => none
    | some v => some (v, { s with mem := s.mem.seek_to pos })
  | Operand.Reg16 i =>
    match s.get_reg i true with
    | none => none
    | some v => some (v, { s with mem := s.mem.seek_to pos })
  | Operand.Imm8 i => some (i, { s with mem := s.mem.seek_to pos })
  | Operand.Imm16 i => some (i, { s with mem := s.mem.seek_to pos })
  | Operand.Seg i => some (s.get_seg_reg i, { s with mem := s.mem.seek_to pos })

/-- `Cpu::write_mem_u16`: positional write that restores the cursor. -/
def write_mem_u16 (s : Cpu) (p val : Nat) : Cpu :=
  let pos := s.mem.pos
  { s with mem := ((s.mem.seek_to p).write_u16 val).seek_to pos }

/-- `Cpu::write_mem_u8`. -/
def write_mem_u8 (s : Cpu) (p val : Nat) : Cpu :=
  let pos := s.mem.pos
  { s with mem := ((s.mem.seek_to p).write_u8 val).seek_to pos }

/-- `Cpu::read_mem_u16`: positional read that restores the cursor. -/
def read_mem_u16 (s : Cpu) (p : Nat) : Option (Nat × Cpu) :=
  let pos := s.mem.pos
  match (s.mem.seek_to p).read_u16 with
  | none => none
  | some (v, m) => some (v, { s with mem := m.seek_to pos })

/-- `Cpu::read_mem_u8`. -/
def read_mem_u8 (s : Cpu) (p : Nat) : Option (Nat × Cpu) :=
  let pos := s.mem.pos
  match (s.mem.seek_to p).read_u8 with
  | none => none
  | some (v, m) => some (v, { s with mem := m.seek_to pos })

/-- `Cpu::aux_add` (`(a & 0xF) + (b & 0xF) > 0xF`). -/
def aux_add (a b : Nat) : Bool := decide (0b1111 < (a &&& 0b1111) + (b &&& 0b1111))

/-- `Cpu::aux_sub` (`(a & 0xF) < (b & 0xF)`). -/
def aux_sub (a b : Nat) : Bool := decide ((a &&& 0b1111) < (b &&& 0b1111))

end Cpu

namespace Cpu

/-- The flag-update block of `Cpu::sub`'s 16-bit arms (AF, PF, ZF recomputed
after `clear_arith`, then OF/CF/SF from the 16-bit overflow tests). -/
def sub_flags16 (fl dest src result : Nat) : Nat :=
  let f := Flags.clear_arith fl
  let f := if aux_sub dest src then Flags.set_af f else f
  let f := if even_parity (w8 result) then Flags.set_pf f else f
  let f := if result == 0 then Flags.set_zf f else f
  let f := if ovfSubI16 dest src then Flags.set_of f else f
  let f := if ovfSubU16 dest src then Flags.set_cf f else f
  if result &&& 0b1000000000000000 != 0 then Flags.set_sf f else f

/-- The flag-update block of `Cpu::sub`'s 8-bit arms.  The SF test mask
`0b1111111110000000` covers bits 7..15 of the 16-bit intermediate, exactly as
in the source. -/
def sub_flags8 (fl dest src result : Nat) : Nat :=
  let f := Flags.clear_arith fl
  let f := if aux_sub dest src then Flags.set_af f else f
  let f := if even_parity (w8 result) then Flags.set_pf f else f
  let f := if result == 0 then Flags.set_zf f else f
  let f := if ovfSubI8 dest src then Flags.set_of f else f
  let f := if ovfSubU8 dest src then Flags.set_cf f else f
  if result &&& 0b1111111110000000 != 0 then Flags.set_sf f else f

/-- The flag-update block of `Cpu::add`'s 16-bit arms. -/
def add_flags16 (fl dest src result : Nat) : Nat :=
  let f := Flags.clear_arith fl
  let f := if aux_add dest src then Flags.set_af f else f
  let f := if even_parity (w8 result) then Flags.set_pf f else f
  let f := if result == 0 then Flags.set_zf f else f
  let f := if ovfAddI16 dest src then Flags.set_of f else f
  let f := if ovfAddU16 dest src then Flags.set_cf f else f
  if result &&& 0b1000000000000000 != 0 then Flags.set_sf f else f

/-- The flag-update block of `Cpu::add`'s 8-bit arms. -/
def add_flags8 (fl dest src result : Nat) : Nat :=
  let f := Flags.clear_arith fl
  let f := if aux_add dest src then Flags.set_af f else f
  let f := if even_parity (w8 result) then Flags.set_pf f else f
  let f := if result == 0 then Flags.set_zf f else f
  let f := if ovfAddI8 dest src then Flags.set_of f else f
  let f := if ovfAddU8 dest src then Flags.set_cf f else f
  if result &&& 0b1111111110000000 != 0 then Flags.set_sf f else f

/-- The flag-update block of `Cpu::inc`'s 16-bit arms: the base clear chain
omits `clear_cf` and no CF set follows, so CF passes through untouched. -/
def inc_flags16 (fl dest src result : Nat) : Nat :=
  let f := Flags.clear_pf (Flags.clear_of (Flags.clear_zf (Flags.clear_sf (Flags.clear_af fl))))
  let f := if aux_add dest src then Flags.set_af f else f
  let f := if even_parity (w8 result) then Flags.set_pf f else f
  let f := if result == 0 then Flags.set_zf f else f
  let f := if ovfAddI16 dest src then Flags.set_of f else f
  if result &&& 0b1000000000000000 != 0 then Flags.set_sf f else f

/-- The flag-update block of `Cpu::inc`'s 8-bit arms. -/
def inc_flags8 (fl dest src result : Nat) : Nat :=
  let f := Flags.clear_pf (Flags.clear_of (Flags.clear_zf (Flags.clear_sf (Flags.clear_af fl))))
  let f := if aux_add dest src then Flags.set_af f else f
  let f := if even_parity (w8 result) then Flags.set_pf f else f
  let f := if result == 0 then Flags.set_zf f else f
  let f := if ovfAddI8 dest src then Flags.set_of f else f
  if result &&& 0b1111111110000000 != 0 then Flags.set_sf f else f

/-- The flag-update block of `Cpu::dec`'s 16-bit arms (CF untouched, like INC). -/
def dec_flags16 (fl dest src result : Nat) : Nat :=
  let f := Flags.clear_pf (Flags.clear_of (Flags.clear_zf (Flags.clear_sf (Flags.clear_af fl))))
  let f := if aux_sub dest src then Flags.set_af f else f
  let f := if even_parity (w8 result) then Flags.set_pf f else f
  let f := if result == 0 then Flags.set_zf f else f
  let f := if ovfSubI16 dest src then Flags.set_of f else f
  if result &&& 0b1000000000000000 != 0 then Flags.set_sf f else f

/-- The flag-update block of `Cpu::dec`'s 8-bit arms. -/
def dec_flags8 (fl dest src result : Nat) : Nat :=
  let f := Flags.clear_pf (Flags.clear_of (Flags.clear_zf (Flags.clear_sf (Flags.clear_af fl))))
  let f := if aux_sub dest src then Flags.set_af f else f
  let f := if even_parity (w8 result) then Flags.set_pf f else f
  let f := if result == 0 then Flags.set_zf f else f
  let f := if ovfSubI8 dest src then Flags.set_of f else f
  if result &&& 0b1111111110000000 != 0 then Flags.set_sf f else f

/-- `Cpu::sub`: SUB/SBB/CMP. The intermediate `result` is a 16-bit value even
for 8-bit operands, exactly as in the source (where `result: u16`). -/
def sub (s : Cpu) (d so : Operand) (sbb cmp : Bool) : Option Cpu :=
  match s.operand_value d with
  | none => none
  | some (dest, s1) =>
  match s1.operand_value so with
  | none => none
  | some (src, s2) =>
  let result := sub16 dest src
  let result := if sbb then (if Flags.cf s2.regs.flags then sub16 result 1 else result) else result
  match d with
  | Operand.Mem16 p _ =>
    let f := sub_flags16 s2.regs.flags dest src result
    let s3 := { s2 with regs := { s2.regs with flags := f } }
    if cmp then some s3 else some (s3.write_mem_u16 p result)
  | Operand.Mem8 p _ =>
    let f := sub_flags8 s2.regs.flags dest src result
    let s3 := { s2 with regs := { s2.regs with flags := f } }
    if cmp then some s3 else some (s3.write_mem_u8 p result)
  | Operand.Reg8 r =>
    let f := sub_flags8 s2.regs.flags dest src result
    let s3 := { s2 with regs := { s2.regs with flags := f } }
    if cmp then some s3 else s3.set_reg r false result
  | Operand.Reg16 r =>
    let f := sub_flags16 s2.regs.flags dest src result
    let s3 := { s2 with regs := { s2.regs with flags := f } }
    if cmp then some s3 else s3.set_reg r true result
  | _ => none

/-- `Cpu::dec`: DEC. Clears AF, SF, ZF, OF, PF (not CF), then recomputes. -/
def dec (s : Cpu) (d : Operand) : Option Cpu :=
  match s.operand_value d with
  | none => none
  | some (dest, s1) =>
  let src := 1
  let result := sub16 dest src
  match d with
  | Operand.Mem16 p _ =>
    let f := dec_flags16 s1.regs.flags dest src result
    some (({ s1 with regs := { s1.regs with flags := f } }).write_mem_u16 p result)
  | Operand.Mem8 p _ =>
    let f := dec_flags8 s1.regs.flags dest src result
    some (({ s1 with regs := { s1.regs with flags := f } }).write_mem_u8 p result)
  | Operand.Reg8 r =>
    let f := dec_flags8 s1.regs.flags dest src result
    ({ s1 with regs := { s1.regs with flags := f } }).set_reg r false result
  | Operand.Reg16 r =>
    let f := dec_flags16 s1.regs.flags dest src result
    ({ s1 with regs := { s1.regs with flags := f } }).set_reg r true result
  | _ => none

/-- `Cpu::add`: ADD/ADC. As in the source, the 8-bit forms compute in a
16-bit intermediate, so the ZF/SF tests can see bits above bit 7. -/
def add (s : Cpu) (d so : Operand) (adc : Bool) : Option Cpu :=
  match s.operand_value d with
  | none => none
  | some (dest, s1) =>
  match s1.operand_value so with
  | none => none
  | some (src, s2) =>
  let result := add16 dest src
  let result := if adc then (if Flags.cf s2.regs.flags then add16 result 1 else result) else result
  match d with
  | Operand.Mem16 p _ =>
    let f := add_flags16 s2.regs.flags dest src result
    some (({ s2 with regs := { s2.regs with flags := f } }).write_mem_u16 p result)
  | Operand.Mem8 p _ =>
    let f := add_flags8 s2.regs.flags dest src result
    some (({ s2 with regs := { s2.regs with flags := f } }).write_mem_u8 p result)
  | Operand.Reg8 r =>
    let f := add_flags8 s2.regs.flags dest src result
    ({ s2 with regs := { s2.regs with flags := f } }).set_reg r false result
  | Operand.Reg16 r =>
    let f := add_flags16 s2.regs.flags dest src result
    ({ s2 with regs := { s2.regs with flags := f } }).set_reg r true result
  | _ => none

/-- `Cpu::inc`: INC. Clears AF, SF, ZF, OF, PF (not CF), then recomputes. -/
def inc (s : Cpu) (d : Operand) : Option Cpu :=
  match s.operand_value d with
  | none => none
  | some (dest, s1) =>
  let src := 1
  let result := add16 dest src
  match d with
  | Operand.Mem16 p _ =>
    let f := inc_flags16 s1.regs.flags dest src result
    some (({ s1 with regs := { s1.regs with flags := f } }).write_mem_u16 p result)
  | Operand.Mem8 p _ =>
    let f := inc_flags8 s1.regs.flags dest src result
    some (({ s1 with regs := { s1.regs with flags := f } }).write_mem_u8 p result)
  | Operand.Reg8 r =>
    let f := inc_flags8 s1.regs.flags dest src result
    ({ s1 with regs := { s1.regs with flags := f } }).set_reg r false result
  | Operand.Reg16 r =>
    let f := inc_flags16 s1.regs.flags dest src result
    ({ s1 with regs := { s1.regs with flags := f } }).set_reg r true result
  | _ => none

/-- `Cpu::bit_op`: AND/OR/XOR/TEST. -/
def bit_op (s : Cpu) (d so : Operand) (op : BitOp) (test : Bool) : Option Cpu :=
  let s0 := { s with regs := { s.regs with flags := Flags.clear_arith s.regs.flags } }
  match s0.operand_value d with
  | none => none
  | some (dest, s1) =>
  match s1.operand_value so with
  | none => none
  | some (src, s2) =>
  let result :=
    match op with
    | BitOp.And => dest &&& src
    | BitOp.Xor => dest ^^^ src
    | BitOp.Or => dest ||| src
  let f := s2.regs.flags
  let f := if even_parity (w8 result) then Flags.set_pf f else f
  let f := if result == 0 then Flags.set_zf f else f
  match d with
  | Operand.Mem16 p _ =>
    let f := if result &&& 0b1000000000000000 != 0 then Flags.set_sf f else f
    let s3 := { s2 with regs := { s2.regs with flags := f } }
    if test then some s3 else some (s3.write_mem_u16 p result)
  | Operand.Mem8 p _ =>
    let f := if result &&& 0b1111111110000000 != 0 then Flags.set_sf f else f
    let s3 := { s2 with regs := { s2.regs with flags := f } }
    if test then some s3 else some (s3.write_mem_u8 p result)
  | Operand.Reg8 r =>
    let f := if result &&& 0b1111111110000000 != 0 then Flags.set_sf f else f
    let s3 := { s2 with regs := { s2.regs with flags := f } }
    if test then some s3 else s3.set_reg r false result
  | Operand.Reg16 r =>
    let f := if result &&& 0b1000000000000000 != 0 then Flags.set_sf f else f
    let s3 := { s2 with regs := { s2.regs with flags := f } }
    if test then some s3 else s3.set_reg r true result
  | _ => none

/-- `Cpu::daa`. -/
def daa (s : Cpu) : Cpu :=
  let al0 := s.regs.get_al
  let f := s.regs.flags
  let p1 : Nat × Nat :=
    if al0 &&& 0b1111 > 9 || Flags.af f then (add8 al0 6, Flags.set_af f) else (al0, f)
  let al := p1.1
  let f := p1.2
  let p2 : Nat × Nat :=
    if al > 0x9f || Flags.cf f then (add8 al 0x60, Flags.set_cf f) else (al, f)
  let al := p2.1
  let f := p2.2
  let f := if al == 0 then Flags.set_zf f else f
  let f := if al &&& 128 != 0 then Flags.set_sf f else f
  let f := if al &&& 128 != al0 &&& 128 then Flags.set_of f else f
  let f := if even_parity al then Flags.set_pf f else f
  { s with regs := ({ s.regs with flags := f }).set_al al }

/-- `Cpu::aaa`. -/
def aaa (s : Cpu) : Cpu :=
  let al := s.regs.get_al
  let ah := s.regs.get_ah
  let f := s.regs.flags
  let t : Nat × Nat × Nat :=
    if al &&& 0b1111 > 9 || Flags.af f then
      (add8 al 6, add8 ah 1, Flags.set_cf (Flags.set_af f))
    else (al, ah, Flags.clear_cf (Flags.clear_af f))
  { s with regs := (({ s.regs with flags := t.2.2 }).set_al (t.1 &&& 0b1111)).set_ah t.2.1 }

/-- `Cpu::das`. -/
def das (s : Cpu) : Cpu :=
  let al0 := s.regs.get_al
  let f := s.regs.flags
  let p1 : Nat × Nat :=
    if al0 &&& 0b1111 > 9 || Flags.af f then (sub8 al0 6, Flags.set_af f) else (al0, f)
  let al := p1.1
  let f := p1.2
  let p2 : Nat × Nat :=
    if al > 0x9f || Flags.cf f then (sub8 al 0x60, Flags.set_cf f) else (al, f)
  let al := p2.1
  let f := p2.2
  let f := if al == 0 then Flags.set_zf f else f
  let f := if al &&& 128 != 0 then Flags.set_sf f else f
  let f := if al &&& 128 != al0 &&& 128 then Flags.set_of f else f
  let f := if even_parity al then Flags.set_pf f else f
  { s with regs := ({ s.regs with flags := f }).set_al al }

/-- `Cpu::aas`. -/
def aas (s : Cpu) : Cpu :=
  let al := s.regs.get_al
  let ah := s.regs.get_ah
  let f := s.regs.flags
  let t : Nat × Nat × Nat :=
    if al &&& 0b1111 > 9 || Flags.af f then
      (sub8 al 6, sub8 ah 1, Flags.set_cf (Flags.set_af f))
    else (al, ah, Flags.clear_cf (Flags.clear_af f))
  { s with regs := (({ s.regs with flags := t.2.2 }).set_al (t.1 &&& 0b1111)).set_ah t.2.1 }

/-- `Cpu::push`: decrements SP by 2 and writes the word at `SS:SP`. -/
def push (s : Cpu) (val : Nat) : Cpu :=
  let s1 := { s with regs := { s.regs with sp := sub16 s.regs.sp 2 } }
  s1.write_mem_u16 (s1.stack_addr s1.regs.sp) val

/-- `Cpu::pop`: reads the word at `SS:SP` and increments SP by 2. -/
def pop (s : Cpu) : Option (Nat × Cpu) :=
  match s.read_mem_u16 (s.stack_addr s.regs.sp) with
  | none => none
  | some (v, s1) => some (v, { s1 with regs := { s1.regs with sp := add16 s1.regs.sp 2 } })

/-- `Cpu::pushf`. -/
def pushf (s : Cpu) : Cpu :=
  let s1 := { s with regs := { s.regs with sp := sub16 s.regs.sp 2 } }
  s1.write_mem_u16 (s1.stack_addr s1.regs.sp) (Flags.to_u16 s1.regs.flags)

/-- `Cpu::popf`. -/
def popf (s : Cpu) : Option Cpu :=
  match s.read_mem_u16 (s.stack_addr s.regs.sp) with
  | none => none
  | some (v, s1) =>
    some { s1 with regs :=
      { s1.regs with flags := Flags.set_from_u16 v, sp := add16 s1.regs.sp 2 } }

/-- `Cpu::pop2`: POP r/m16. -/
def pop2 (s : Cpu) (inst : Instruction) : Option Cpu :=
  match s.read_mem_u16 (s.stack_addr s.regs.sp) with
  | none => none
  | some (val, s1) =>
  let s2 := { s1 with regs := { s1.regs with sp := add16 s1.regs.sp 2 } }
  match inst.dest with
  | Operand.Mem16 p _ => some (s2.write_mem_u16 p val)
  | Operand.Reg16 r => s2.set_reg r true val
  | _ => none

/-- `Cpu::adjust_ip_short`: adds a sign-extended 8-bit displacement to IP. -/
def adjust_ip_short (s : Cpu) (val : Nat) : Cpu :=
  let v := toI8 val
  if 0 ≤ v then { s with regs := { s.regs with ip := add16 s.regs.ip v.toNat } }
  else { s with regs := { s.regs with ip := sub16 s.regs.ip (-v).toNat } }

/-- `Cpu::adjust_ip_long`: adds a sign-extended 16-bit displacement to IP. -/
def adjust_ip_long (s : Cpu) (val : Nat) : Cpu :=
  let v := toI16 val
  if 0 ≤ v then { s with regs := { s.regs with ip := add16 s.regs.ip v.toNat } }
  else { s with regs := { s.regs with ip := sub16 s.regs.ip (-v).toNat } }

/-- `Cpu::exchg`: XCHG. -/
def exchg (s : Cpu) (inst : Instruction) : Option Cpu :=
  match inst.dest with
  | Operand.Mem16 i _ =>
    match inst.src with
    | Operand.Reg16 r =>
      match s.read_mem_u16 i with
      | none => none
      | some (d, s1) =>
      match s1.get_reg r true with
      | none => none
      | some sv =>
      match s1.set_reg r true d with
      | none => none
      | some s2 => some (s2.write_mem_u16 i sv)
    | _ => none
  | Operand.Mem8 i _ =>
    match inst.src with
    | Operand.Reg8 r =>
      match s.read_mem_u8 i with
      | none => none
      | some (d, s1) =>
      match s1.get_reg r false with
      | none => none
      | some sv =>
      match s1.set_reg r false d with
      | none => none
      | some s2 => some (s2.write_mem_u8 i sv)
    | _ => none
  | Operand.Reg8 r =>
    match inst.src with
    | Operand.Mem8 i _ =>
      match s.read_mem_u8 i with
      | none => none
      | some (d, s1) =>
      match s1.get_reg r false with
      | none => none
      | some sv =>
      match s1.set_reg r false d with
      | none => none
      | some s2 => some (s2.write_mem_u8 i sv)
    | Operand.Reg8 reg =>
      match s.get_reg r false with
      | none => none
      | some d =>
      match s.get_reg reg false with
      | none => none
      | some sv =>
      match s.set_reg reg false d with
      | none => none
      | some s1 => s1.set_reg r false sv
    | _ => none
  | Operand.Reg16 r =>
    match inst.src with
    | Operand.Mem16 i _ =>
      match s.read_mem_u16 i with
      | none => none
      | some (d, s1) =>
      match s1.get_reg r true with
      | none => none
      | some sv =>
      match s1.set_reg r true d with
      | none => none
      | some s2 => some (s2.write_mem_u16 i sv)
    | Operand.Reg16 reg =>
      match s.get_reg r true with
      | none => none
      | some d =>
      match s.get_reg reg true with
      | none => none
      | some sv =>
      match s.set_reg reg true d with
      | none => none
      | some s1 => s1.set_reg r true sv
    | _ => none
  | _ => none

/-- `Cpu::mov`. -/
def mov (s : Cpu) (inst : Instruction) : Option Cpu :=
  match inst.dest with
  | Operand.Mem16 i _ =>
    match inst.src with
    | Operand.Reg16 r =>
      match s.get_reg r true with
      | none => none
      | some v => some (s.write_mem_u16 i v)
    | Operand.Seg r => some (s.write_mem_u16 i (s.get_seg_reg r))
    | Operand.Imm16 imm => some (s.write_mem_u16 i imm)
    | _ => none
  | Operand.Mem8 i _ =>
    match inst.src with
    | Operand.Reg8 r =>
      match s.get_reg r false with
      | none => none
      | some v => some (s.write_mem_u8 i v)
    | Operand.Imm8 imm => some (s.write_mem_u8 i imm)
    | _ => none
  | Operand.Reg8 r =>
    match inst.src with
    | Operand.Mem8 i _ =>
      match s.read_mem_u8 i with
      | none => none
      | some (d, s1) => s1.set_reg r false d
    | Operand.Reg8 reg =>
      match s.get_reg reg false with
      | none => none
      | some v => s.set_reg r false v
    | Operand.Imm8 im => s.set_reg r false im
    | _ => none
  | Operand.Reg16 r =>
    match inst.src with
    | Operand.Mem16 i _ =>
      match s.read_mem_u16 i with
      | none => none
      | some (d, s1) => s1.set_reg r true d
    | Operand.Reg16 reg =>
      match s.get_reg reg true with
      | none => none
      | some v => s.set_reg r true v
    | Operand.Seg reg => s.set_reg r true (s.get_seg_reg reg)
    | Operand.Imm16 im => s.set_reg r true im
    | _ => none
  | Operand.Seg r =>
    match inst.src with
    | Operand.Reg16 r2 =>
      match s.get_reg r2 true with
      | none => none
      | some v => some (s.set_seg_reg r v)
    | Operand.Mem16 m _ =>
      match s.read_mem_u16 m with
      | none => none
      | some (v, s1) => some (s1.set_seg_reg r v)
    | _ => none
  | _ => none

/-- `Cpu::lea`: stores the pre-segmentation offset of the memory operand. -/
def lea (s : Cpu) (inst : Instruction) : Option Cpu :=
  match inst.dest with
  | Operand.Reg16 r =>
    match inst.src with
    | Operand.Mem16 _ m => s.set_reg r true m
    | _ => none
  | _ => none

/-- `Cpu::cbw`. -/
def cbw (s : Cpu) : Cpu :=
  if s.regs.get_al &&& 0b10000000 != 0 then { s with regs := s.regs.set_ah 255 }
  else { s with regs := s.regs.set_ah 0 }

/-- `Cpu::cwd`. -/
def cwd (s : Cpu) : Cpu :=
  if s.regs.get_ah &&& 0b10000000 != 0 then { s with regs := s.regs.set_dx 0xffff }
  else { s with regs := s.regs.set_dx 0 }

/-- `Cpu::lahf`. -/
def lahf (s : Cpu) : Cpu :=
  { s with regs := s.regs.set_ah (w8 (Flags.to_u16 s.regs.flags)) }

/-- `Cpu::sahf`. -/
def sahf (s : Cpu) : Cpu :=
  let v := (Flags.to_u16 s.regs.flags &&& 0xff00) ||| (s.regs.get_ah % 65536)
  { s with regs := { s.regs with flags := Flags.set_from_u16 v } }

end Cpu

/-- 8-bit `rotate_left`. -/
def rotl8 (v t : Nat) : Nat :=
  ((v % 256) <<< (t % 8) ||| (v % 256) >>> (8 - t % 8)) % 256

/-- 8-bit `rotate_right`. -/
def rotr8 (v t : Nat) : Nat :=
  ((v % 256) >>> (t % 8) ||| (v % 256) <<< (8 - t % 8)) % 256

/-- 16-bit `rotate_left`. -/
def rotl16 (v t : Nat) : Nat :=
  ((v % 65536) <<< (t % 16) ||| (v % 65536) >>> (16 - t % 16)) % 65536

/-- 16-bit `rotate_right`. -/
def rotr16 (v t : Nat) : Nat :=
  ((v % 65536) >>> (t % 16) ||| (v % 65536) <<< (16 - t % 16)) % 65536

/-- 8-bit `wrapping_neg`. -/
def neg8 (v : Nat) : Nat := (256 - v % 256) % 256

/-- 16-bit `wrapping_neg`. -/
def neg16 (v : Nat) : Nat := (65536 - v % 65536) % 65536

/-- Two's-complement encoding of an `Int` into the low 8 bits (`as u8`). -/
def ofI8 (z : Int) : Nat := (z % 256).toNat

/-- Two's-complement encoding of an `Int` into the low 16 bits (`as u16`). -/
def ofI16 (z : Int) : Nat := (z % 65536).toNat

namespace Cpu

/-- `Cpu::movsb`.  Note the source sets SI from the freshly updated DI
(`self.regs.si = self.regs.di.wrapping_add(1)` after DI was changed). -/
def movsb (s : Cpu) : Option Cpu :=
  let dest := s.extra_addr s.regs.di
  let src := s.data_addr s.regs.si
  match s.read_mem_u8 src with
  | none => none
  | some (val, s1) =>
  let s2 := s1.write_mem_u8 dest val
  if !Flags.df s2.regs.flags then
    let di' := add16 s2.regs.di 1
    some { s2 with regs := { s2.regs with di := di', si := add16 di' 1 } }
  else
    let di' := sub16 s2.regs.di 1
    some { s2 with regs := { s2.regs with di := di', si := sub16 di' 1 } }

/-- `Cpu::movsw`; SI is again set from the new DI. -/
def movsw (s : Cpu) : Option Cpu :=
  let dest := s.extra_addr s.regs.di
  let src := s.data_addr s.regs.si
  match s.read_mem_u16 src with
  | none => none
  | some (val, s1) =>
  let s2 := s1.write_mem_u16 dest val
  if !Flags.df s2.regs.flags then
    let di' := add16 s2.regs.di 2
    some { s2 with regs := { s2.regs with di := di', si := add16 di' 2 } }
  else
    let di' := sub16 s2.regs.di 2
    some { s2 with regs := { s2.regs with di := di', si := sub16 di' 2 } }

/-- `Cpu::cmpsb`; the `result` here is an 8-bit value (`a: u8`), and SI is set
from the new DI. -/
def cmpsb (s : Cpu) : Option Cpu :=
  let destt := s.extra_addr s.regs.di
  let srcc := s.data_addr s.regs.si
  match s.read_mem_u8 srcc with
  | none => none
  | some (a, s1) =>
  match s1.read_mem_u8 destt with
  | none => none
  | some (b, s2) =>
  let result := sub8 a b
  let f := Flags.clear_arith s2.regs.flags
  let f := if aux_sub a b then Flags.set_af f else f
  let f := if even_parity (w8 result) then Flags.set_pf f else f
  let f := if result == 0 then Flags.set_zf f else f
  let f := if ovfSubI8 a b then Flags.set_of f else f
  let f := if ovfSubU8 a b then Flags.set_cf f else f
  let f := if result &&& 0b10000000 != 0 then Flags.set_sf f else f
  let s3 := { s2 with regs := { s2.regs with flags := f } }
  if !Flags.df s3.regs.flags then
    let di' := add16 s3.regs.di 1
    some { s3 with regs := { s3.regs with di := di', si := add16 di' 1 } }
  else
    let di' := sub16 s3.regs.di 1
    some { s3 with regs := { s3.regs with di := di', si := sub16 di' 1 } }

/-- The flag-update block of `Cpu::scasb`: the full 8-bit compare chain (AF,
PF, ZF, OF, CF, SF after `clear_arith`) on `a - b`, SF masked with
`0b10000000`. -/
def scasb_flags (fl a b : Nat) : Nat :=
  let result := sub8 a b
  let f := Flags.clear_arith fl
  let f := if aux_sub a b then Flags.set_af f else f
  let f := if even_parity (w8 result) then Flags.set_pf f else f
  let f := if result == 0 then Flags.set_zf f else f
  let f := if ovfSubI8 a b then Flags.set_of f else f
  let f := if ovfSubU8 a b then Flags.set_cf f else f
  if result &&& 0b10000000 != 0 then Flags.set_sf f else f

/-- `Cpu::scasb`: compares the byte at `ES:DI` with AH (the source reads
`self.regs.get_ah()`, not AL); only DI is stepped. -/
def scasb (s : Cpu) : Option Cpu :=
  let destt := s.extra_addr s.regs.di
  match s.read_mem_u8 destt with
  | none => none
  | some (a, s1) =>
  let f := scasb_flags s1.regs.flags a s1.regs.get_ah
  let s2 := { s1 with regs := { s1.regs with flags := f } }
  if !Flags.df s2.regs.flags then
    some { s2 with regs := { s2.regs with di := add16 s2.regs.di 1 } }
  else
    some { s2 with regs := { s2.regs with di := sub16 s2.regs.di 1 } }

/-- `Cpu::scasw`: compares the word at `ES:DI` with AX; only DI is stepped.
The SF test uses the mask `!0b01111111` inferred at `u16` (bits 7..15),
exactly as in the source. -/
def scasw (s : Cpu) : Option Cpu :=
  let destt := s.extra_addr s.regs.di
  match s.read_mem_u16 destt with
  | none => none
  | some (a, s1) =>
  let b := s1.regs.get_ax
  let result := sub16 a b
  let f := Flags.clear_arith s1.regs.flags
  let f := if aux_sub a b then Flags.set_af f else f
  let f := if even_parity (w8 result) then Flags.set_pf f else f
  let f := if result == 0 then Flags.set_zf f else f
  let f := if ovfSubI16 a b then Flags.set_of f else f
  let f := if ovfSubU16 a b then Flags.set_cf f else f
  let f := if result &&& 0b1111111110000000 != 0 then Flags.set_sf f else f
  let s2 := { s1 with regs := { s1.regs with flags := f } }
  if !Flags.df s2.regs.flags then
    some { s2 with regs := { s2.regs with di := add16 s2.regs.di 2 } }
  else
    some { s2 with regs := { s2.regs with di := sub16 s2.regs.di 2 } }

/-- `Cpu::cmpsw`: the word compare.  Note that the source steps DI by 1 (not
2) and sets SI from the new DI. -/
def cmpsw (s : Cpu) : Option Cpu :=
  let destt := s.extra_addr s.regs.di
  let srcc := s.data_addr s.regs.si
  match s.read_mem_u16 srcc with
  | none => none
  | some (a, s1) =>
  match s1.read_mem_u16 destt with
  | none => none
  | some (b, s2) =>
  let result := sub16 a b
  let f := Flags.clear_arith s2.regs.flags
  let f := if aux_sub a b then Flags.set_af f else f
  let f := if even_parity (w8 result) then Flags.set_pf f else f
  let f := if result == 0 then Flags.set_zf f else f
  let f := if ovfSubI16 a b then Flags.set_of f else f
  let f := if ovfSubU16 a b then Flags.set_cf f else f
  let f := if result &&& 0b1000000000000000 != 0 then Flags.set_sf f else f
  let s3 := { s2 with regs := { s2.regs with flags := f } }
  if !Flags.df s3.regs.flags then
    let di' := add16 s3.regs.di 1
    some { s3 with regs := { s3.regs with di := di', si := add16 di' 1 } }
  else
    let di' := sub16 s3.regs.di 1
    some { s3 with regs := { s3.regs with di := di', si := sub16 di' 1 } }

/-- `Cpu::stosb`. -/
def stosb (s : Cpu) : Cpu :=
  let destt := s.extra_addr s.regs.di
  let s1 := s.write_mem_u8 destt s.regs.get_al
  if !Flags.df s1.regs.flags then
    { s1 with regs := { s1.regs with di := add16 s1.regs.di 1 } }
  else
    { s1 with regs := { s1.regs with di := sub16 s1.regs.di 1 } }

/-- `Cpu::stosw`. -/
def stosw (s : Cpu) : Cpu :=
  let destt := s.extra_addr s.regs.di
  let s1 := s.write_mem_u16 destt s.regs.get_ax
  if !Flags.df s1.regs.flags then
    { s1 with regs := { s1.regs with di := add16 s1.regs.di 2 } }
  else
    { s1 with regs := { s1.regs with di := sub16 s1.regs.di 2 } }

/-- `Cpu::lodsb`. -/
def lodsb (s : Cpu) : Option Cpu :=
  let src := s.data_addr s.regs.si
  match s.read_mem_u8 src with
  | none => none
  | some (val, s1) =>
  let s2 := { s1 with regs := s1.regs.set_al val }
  if !Flags.df s2.regs.flags then
    some { s2 with regs := { s2.regs with si := add16 s2.regs.si 1 } }
  else
    some { s2 with regs := { s2.regs with si := sub16 s2.regs.si 1 } }

/-- `Cpu::lodsw`. -/
def lodsw (s : Cpu) : Option Cpu :=
  let src := s.data_addr s.regs.si
  match s.read_mem_u16 src with
  | none => none
  | some (val, s1) =>
  let s2 := { s1 with regs := s1.regs.set_ax val }
  if !Flags.df s2.regs.flags then
    some { s2 with regs := { s2.regs with si := add16 s2.regs.si 2 } }
  else
    some { s2 with regs := { s2.regs with si := sub16 s2.regs.si 2 } }

/-- `Cpu::ret`. -/
def ret (s : Cpu) (inst : Instruction) : Option Cpu :=
  match s.pop with
  | none => none
  | some (v, s1) =>
  let s2 := { s1 with regs := { s1.regs with ip := v } }
  match inst.dest with
  | Operand.Imm16 im => some { s2 with regs := { s2.regs with sp := add16 s2.regs.sp im } }
  | _ => some s2

/-- `Cpu::retf`. -/
def retf (s : Cpu) (inst : Instruction) : Option Cpu :=
  match s.pop with
  | none => none
  | some (v, s1) =>
  let s2 := { s1 with regs := { s1.regs with ip := v } }
  match s2.pop with
  | none => none
  | some (c, s3) =>
  let s4 := { s3 with regs := { s3.regs with cs := c } }
  match inst.dest with
  | Operand.Imm16 im => some { s4 with regs := { s4.regs with sp := add16 s4.regs.sp im } }
  | _ => some s4

/-- `Cpu::les`. -/
def les (s : Cpu) (inst : Instruction) : Option Cpu :=
  match inst.dest with
  | Operand.Reg16 r =>
    match inst.src with
    | Operand.Mem16 m _ =>
      match s.read_mem_u16 m with
      | none => none
      | some (w, s1) =>
      match s1.set_reg r true w with
      | none => none
      | some s2 =>
      match s2.read_mem_u16 ((m + 2) % 4294967296) with
      | none => none
      | some (w2, s3) => some { s3 with regs := { s3.regs with es := w2 } }
    | _ => none
  | _ => none

/-- `Cpu::lds`. -/
def lds (s : Cpu) (inst : Instruction) : Option Cpu :=
  match inst.dest with
  | Operand.Reg16 r =>
    match inst.src with
    | Operand.Mem16 m _ =>
      match s.read_mem_u16 m with
      | none => none
      | some (w, s1) =>
      match s1.set_reg r true w with
      | none => none
      | some s2 =>
      match s2.read_mem_u16 ((m + 2) % 4294967296) with
      | none => none
      | some (w2, s3) => some { s3 with regs := { s3.regs with ds := w2 } }
    | _ => none
  | _ => none

/-- `Cpu::rot8`: ROL/ROR core on 8 bits; sets CF/OF as the source does. -/
def rot8 (s : Cpu) (dest times : Nat) (left : Bool) : Nat × Cpu :=
  let res := if left then rotl8 dest times else rotr8 dest times
  let f := s.regs.flags
  let f :=
    if left then (if times > 0 && res &&& 1 != 0 then Flags.set_cf f else f)
    else (if times > 0 && res &&& 128 != 0 then Flags.set_cf f else f)
  let f := if res &&& 0b10000000 != dest &&& 0b10000000 then Flags.set_of f else f
  (res, { s with regs := { s.regs with flags := f } })

/-- `Cpu::rot16`. -/
def rot16 (s : Cpu) (dest times : Nat) (left : Bool) : Nat × Cpu :=
  let res := if left then rotl16 dest times else rotr16 dest times
  let f := s.regs.flags
  let f :=
    if left then (if times > 0 && res &&& 1 != 0 then Flags.set_cf f else f)
    else (if times > 0 && res &&& 0b1000000000000000 != 0 then Flags.set_cf f else f)
  let f :=
    if res &&& 0b1000000000000000 != dest &&& 0b1000000000000000 then Flags.set_of f else f
  (res, { s with regs := { s.regs with flags := f } })

/-- `Cpu::rotate`: ROL/ROR dispatch. -/
def rotate (s : Cpu) (inst : Instruction) (left : Bool) : Option Cpu :=
  match (match inst.src with
         | Operand.Imm8 imm => some imm
         | Operand.Reg8 1 => some s.regs.get_cl
         | _ => none) with
  | none => none
  | some times =>
  match s.operand_value inst.dest with
  | none => none
  | some (dest, s1) =>
  let s2 := { s1 with regs :=
    { s1.regs with flags := Flags.clear_of (Flags.clear_cf s1.regs.flags) } }
  match inst.dest with
  | Operand.Reg16 id =>
    let (val, s3) := s2.rot16 dest times left
    s3.set_reg id true val
  | Operand.Mem16 p _ =>
    let (val, s3) := s2.rot16 dest times left
    some (s3.write_mem_u16 p val)
  | Operand.Reg8 id =>
    let (val, s3) := s2.rot8 (w8 dest) times left
    s3.set_reg id false val
  | Operand.Mem8 p _ =>
    let (val, s3) := s2.rot8 (w8 dest) times left
    some (s3.write_mem_u8 p val)
  | _ => none

/-- `Cpu::rotcf8`: RCL/RCR core on 8 bits. -/
def rotcf8 (s : Cpu) (dest times : Nat) (left : Bool) : Nat × Cpu :=
  let oldcf := Flags.cf s.regs.flags
  let f := Flags.clear_of (Flags.clear_cf s.regs.flags)
  if left then
    let rn := rotl8 dest times
    let f := if times > 0 && rn &&& 1 != 0 then Flags.set_cf f else f
    let rn := (rn &&& 0b11111110) ||| (if oldcf then 1 else 0)
    let f := if rn &&& 0b10000000 != dest &&& 0b10000000 then Flags.set_of f else f
    (rn, { s with regs := { s.regs with flags := f } })
  else
    let rn := rotr8 dest times
    let f := if times > 0 && rn &&& 128 != 0 then Flags.set_cf f else f
    let rn := (rn &&& 0b01111111) ||| ((if oldcf then 1 else 0) <<< 7)
    let f := if rn &&& 0b10000000 != dest &&& 0b10000000 then Flags.set_of f else f
    (rn, { s with regs := { s.regs with flags := f } })

/-- `Cpu::rotcf16`: RCL/RCR core on 16 bits. -/
def rotcf16 (s : Cpu) (dest times : Nat) (left : Bool) : Nat × Cpu :=
  let oldcf := Flags.cf s.regs.flags
  let f := Flags.clear_of (Flags.clear_cf s.regs.flags)
  if left then
    let rn := rotl16 dest times
    let f := if times > 0 && rn &&& 1 != 0 then Flags.set_cf f else f
    let rn := (rn &&& 0b1111111111111110) ||| (if oldcf then 1 else 0)
    let f :=
      if rn &&& 0b1000000000000000 != dest &&& 0b1000000000000000 then Flags.set_of f else f
    (rn, { s with regs := { s.regs with flags := f } })
  else
    let rn := rotr16 dest times
    let f := if times > 0 && rn &&& 0b1000000000000000 != 0 then Flags.set_cf f else f
    let rn := (rn &&& 0x7fff) ||| ((if oldcf then 1 else 0) <<< 15)
    let f :=
      if rn &&& 0b1000000000000000 != dest &&& 0b1000000000000000 then Flags.set_of f else f
    (rn, { s with regs := { s.regs with flags := f } })

/-- `Cpu::rotate_cf`: RCL/RCR dispatch. -/
def rotate_cf (s : Cpu) (inst : Instruction) (left : Bool) : Option Cpu :=
  match (match inst.src with
         | Operand.Imm8 imm => some imm
         | Operand.Reg8 1 => some s.regs.get_cl
         | _ => none) with
  | none => none
  | some times =>
  match s.operand_value inst.dest with
  | none => none
  | some (dest, s1) =>
  match inst.dest with
  | Operand.Reg16 id =>
    let (val, s3) := s1.rotcf16 dest times left
    s3.set_reg id true val
  | Operand.Mem16 p _ =>
    let (val, s3) := s1.rotcf16 dest times left
    some (s3.write_mem_u16 p val)
  | Operand.Reg8 id =>
    let (val, s3) := s1.rotcf8 (w8 dest) times left
    s3.set_reg id false val
  | Operand.Mem8 p _ =>
    let (val, s3) := s1.rotcf8 (w8 dest) times left
    some (s3.write_mem_u8 p val)
  | _ => none

/-- `Cpu::sh8`: single 8-bit logical shift step. -/
def sh8 (s : Cpu) (val : Nat) (left : Bool) : Nat × Cpu :=
  let f := Flags.clear_of (Flags.clear_cf s.regs.flags)
  let f := if left then (if val &&& 128 != 0 then Flags.set_cf f else f)
           else (if val &&& 1 != 0 then Flags.set_cf f else f)
  let res := if left then (val <<< 1) % 256 else (val % 256) >>> 1
  let f := if val &&& 128 != res &&& 128 then Flags.set_of f else f
  (res, { s with regs := { s.regs with flags := f } })

/-- `Cpu::sh16`: single 16-bit logical shift step. -/
def sh16 (s : Cpu) (val : Nat) (left : Bool) : Nat × Cpu :=
  let f := Flags.clear_of (Flags.clear_cf s.regs.flags)
  let f := if left then (if val &&& 0x8000 != 0 then Flags.set_cf f else f)
           else (if val &&& 1 != 0 then Flags.set_cf f else f)
  let res := if left then (val <<< 1) % 65536 else (val % 65536) >>> 1
  let f := if val &&& 0x8000 != res &&& 0x8000 then Flags.set_of f else f
  (res, { s with regs := { s.regs with flags := f } })

/-- One iteration of the `for` loop of `Cpu::shift`: the shifted value is
recomputed from the ORIGINAL `dest` each time, as in the source. -/
def shift_step (s : Cpu) (inst : Instruction) (dest : Nat) (left : Bool) : Option Cpu :=
  match inst.dest with
  | Operand.Reg16 id =>
    let (val, s1) := s.sh16 dest left
    s1.set_reg id true val
  | Operand.Mem16 p _ =>
    let (val, s1) := s.sh16 dest left
    some (s1.write_mem_u16 p val)
  | Operand.Reg8 id =>
    let (val, s1) := s.sh8 (w8 dest) left
    s1.set_reg id false val
  | Operand.Mem8 p _ =>
    let (val, s1) := s.sh8 (w8 dest) left
    some (s1.write_mem_u8 p val)
  | _ => none

/-- The `for i in 0..times` loop of `Cpu::shift`. -/
def shift_loop (inst : Instruction) (dest : Nat) (left : Bool) : Nat → Cpu → Option Cpu
  | 0, s => some s
  | n + 1, s =>
    match shift_step s inst dest left with
    | none => none
    | some s1 => shift_loop inst dest left n s1

/-- `Cpu::shift`: SHL/SHR. -/
def shift (s : Cpu) (inst : Instruction) (left : Bool) : Option Cpu :=
  match s.operand_value inst.src with
  | none => none
  | some (times, s1) =>
  match s1.operand_value inst.dest with
  | none => none
  | some (dest, s2) => shift_loop inst dest left times s2

/-- `Cpu::shal8`: single 8-bit arithmetic right shift step. -/
def shal8 (s : Cpu) (val : Nat) : Nat × Cpu :=
  let f := Flags.clear_of (Flags.clear_cf s.regs.flags)
  let f := if val &&& 1 != 0 then Flags.set_cf f else f
  let res := ((val % 256) >>> 1) ||| (val &&& 128)
  let f := if val &&& 128 != res &&& 128 then Flags.set_of f else f
  (res, { s with regs := { s.regs with flags := f } })

/-- `Cpu::shal16`: single 16-bit arithmetic right shift step. -/
def shal16 (s : Cpu) (val : Nat) : Nat × Cpu :=
  let f := Flags.clear_of (Flags.clear_cf s.regs.flags)
  let f := if val &&& 1 != 0 then Flags.set_cf f else f
  let res := ((val % 65536) >>> 1) ||| (val &&& 0x8000)
  let f := if val &&& 0x8000 != res &&& 0x8000 then Flags.set_of f else f
  (res, { s with regs := { s.regs with flags := f } })

/-- One iteration of the `for` loop of `Cpu::shalr`. -/
def shalr_step (s : Cpu) (inst : Instruction) (dest : Nat) : Option Cpu :=
  match inst.dest with
  | Operand.Reg16 id =>
    let (val, s1) := s.shal16 dest
    s1.set_reg id true val
  | Operand.Mem16 p _ =>
    let (val, s1) := s.shal16 dest
    some (s1.write_mem_u16 p val)
  | Operand.Reg8 id =>
    let (val, s1) := s.shal8 (w8 dest)
    s1.set_reg id false val
  | Operand.Mem8 p _ =>
    let (val, s1) := s.shal8 (w8 dest)
    some (s1.write_mem_u8 p val)
  | _ => none

/-- The `for i in 0..times` loop of `Cpu::shalr`. -/
def shalr_loop (inst : Instruction) (dest : Nat) : Nat → Cpu → Option Cpu
  | 0, s => some s
  | n + 1, s =>
    match shalr_step s inst dest with
    | none => none
    | some s1 => shalr_loop inst dest n s1

/-- `Cpu::shalr`: SAR. -/
def shalr (s : Cpu) (inst : Instruction) : Option Cpu :=
  match s.operand_value inst.src with
  | none => none
  | some (times, s1) =>
  match s1.operand_value inst.dest with
  | none => none
  | some (dest, s2) => shalr_loop inst dest times s2

/-- `Cpu::aad`. -/
def aad (s : Cpu) : Cpu :=
  let al := add8 ((s.regs.get_ah * 10) % 256) s.regs.get_al
  let f := s.regs.flags
  let f := if al == 0 then Flags.set_zf f else f
  let f := if al &&& 128 != 0 then Flags.set_sf f else f
  let f := if even_parity al then Flags.set_pf f else f
  { s with regs := (({ s.regs with flags := f }).set_al al).set_ah 0 }

/-- `Cpu::aam`. -/
def aam (s : Cpu) : Cpu :=
  let ah := s.regs.get_al / 10
  let al := s.regs.get_al % 10
  let r1 := (s.regs.set_al al).set_ah ah
  let ax := r1.ax
  let f := r1.flags
  let f := if ax &&& 0x8000 != 0 then Flags.set_sf f else f
  let f := if ax == 0 then Flags.set_zf f else f
  let f := if even_parity al then Flags.set_pf f else f
  { s with regs := { r1 with flags := f } }

/-- `Cpu::xlat`. -/
def xlat (s : Cpu) : Option Cpu :=
  let offt := add16 s.regs.bx s.regs.get_al
  match s.read_mem_u8 (s.data_addr offt) with
  | none => none
  | some (byte, s1) => some { s1 with regs := s1.regs.set_al byte }

/-- `Cpu::loopp`: LOOP. -/
def loopp (s : Cpu) (inst : Instruction) : Option Cpu :=
  let s1 := { s with regs := { s.regs with cx := sub16 s.regs.cx 1 } }
  if s1.regs.cx != 0 then
    match inst.dest with
    | Operand.Imm8 i => some (s1.adjust_ip_short i)
    | _ => none
  else some s1

/-- `Cpu::loope`. -/
def loope (s : Cpu) (inst : Instruction) : Option Cpu :=
  let s1 := { s with regs := { s.regs with cx := sub16 s.regs.cx 1 } }
  if s1.regs.cx != 0 && Flags.zf s1.regs.flags then
    match inst.dest with
    | Operand.Imm8 i => some (s1.adjust_ip_short i)
    | _ => none
  else some s1

/-- `Cpu::loopne`. -/
def loopne (s : Cpu) (inst : Instruction) : Option Cpu :=
  let s1 := { s with regs := { s.regs with cx := sub16 s.regs.cx 1 } }
  if s1.regs.cx != 0 && !Flags.zf s1.regs.flags then
    match inst.dest with
    | Operand.Imm8 i => some (s1.adjust_ip_short i)
    | _ => none
  else some s1

/-- `Cpu::jcxz`. -/
def jcxz (s : Cpu) (inst : Instruction) : Option Cpu :=
  if s.regs.cx == 0 then
    match inst.dest with
    | Operand.Imm8 i => some (s.adjust_ip_short i)
    | _ => none
  else some s

/-- `Cpu::jmp_near`. -/
def jmp_near (s : Cpu) (inst : Instruction) : Option Cpu :=
  match inst.src with
  | Operand.Imm16 imm => some (s.adjust_ip_long imm)
  | Operand.Imm8 imm => some (s.adjust_ip_short imm)
  | Operand.Reg16 r =>
    match s.get_reg r true with
    | none => none
    | some v => some { s with regs := { s.regs with ip := v } }
  | _ => none

/-- `Cpu::call_near`. -/
def call_near (s : Cpu) (inst : Instruction) : Option Cpu :=
  match inst.src with
  | Operand.Imm16 imm =>
    let s1 := s.push s.regs.ip
    some (s1.adjust_ip_long imm)
  | Operand.Mem16 p _ =>
    let s1 := s.push s.regs.ip
    match s1.read_mem_u16 p with
    | none => none
    | some (v, s2) => some { s2 with regs := { s2.regs with ip := v } }
  | Operand.Reg16 r =>
    let s1 := s.push s.regs.ip
    match s1.get_reg r true with
    | none => none
    | some v => some { s1 with regs := { s1.regs with ip := v } }
  | _ => none

/-- `Cpu::call_far`. -/
def call_far (s : Cpu) (inst : Instruction) : Option Cpu :=
  let s1 := (s.push s.regs.cs).push s.regs.ip
  match inst.dest with
  | Operand.Imm16 ip' =>
    match inst.src with
    | Operand.Imm16 seg =>
      some { s1 with regs := { s1.regs with ip := ip', cs := seg } }
    | _ => none
  | Operand.Mem16 p _ =>
    match s1.read_mem_u16 p with
    | none => none
    | some (v, s2) =>
    match s2.read_mem_u16 ((p + 2) % 4294967296) with
    | none => none
    | some (c, s3) => some { s3 with regs := { s3.regs with ip := v, cs := c } }
  | _ => none

/-- `Cpu::jmp_far`. -/
def jmp_far (s : Cpu) (inst : Instruction) : Option Cpu :=
  match inst.src with
  | Operand.Imm16 imm =>
    match inst.dest with
    | Operand.Imm16 imm2 =>
      some { s with regs := { s.regs with ip := imm2, cs := imm } }
    | _ => none
  | Operand.Mem16 p _ =>
    match s.read_mem_u16 p with
    | none => none
    | some (v, s1) =>
    match s1.read_mem_u16 ((p + 2) % 4294967296) with
    | none => none
    | some (c, s2) => some { s2 with regs := { s2.regs with ip := v, cs := c } }
  | _ => none

/-- `Cpu::push_mem`: PUSH r/m16. -/
def push_mem (s : Cpu) (inst : Instruction) : Option Cpu :=
  match inst.src with
  | Operand.Mem16 p _ =>
    match s.read_mem_u16 p with
    | none => none
    | some (val, s1) => some (s1.push val)
  | _ => none

/-- The operand fetch shared by the `mul`/`imul`/`div`/`idiv` 8-bit arms
(`match inst.dest { Reg8 | Mem8 }`). -/
def rm_value8 (s : Cpu) (d : Operand) : Option (Nat × Cpu) :=
  match d with
  | Operand.Reg8 r =>
    match s.get_reg r false with
    | none => none
    | some v => some (v, s)
  | Operand.Mem8 p _ => s.read_mem_u8 p
  | _ => none

/-- The operand fetch shared by the `mul`/`imul`/`div`/`idiv` 16-bit arms. -/
def rm_value16 (s : Cpu) (d : Operand) : Option (Nat × Cpu) :=
  match d with
  | Operand.Reg16 r =>
    match s.get_reg r true with
    | none => none
    | some v => some (v, s)
  | Operand.Mem16 p _ => s.read_mem_u16 p
  | _ => none

/-- `Cpu::mul`. -/
def mul (s : Cpu) (inst : Instruction) : Option Cpu :=
  let s0 := { s with regs :=
    { s.regs with flags := Flags.clear_cf (Flags.clear_of s.regs.flags) } }
  match inst.dest with
  | Operand.Reg8 _ | Operand.Mem8 _ _ =>
    match s0.rm_value8 inst.dest with
    | none => none
    | some (op, s1) =>
    let s2 := { s1 with regs := { s1.regs with ax := (s1.regs.get_al * op) % 65536 } }
    if s2.regs.get_ah != 0 then
      some { s2 with regs :=
        { s2.regs with flags := Flags.set_cf (Flags.set_of s2.regs.flags) } }
    else some s2
  | Operand.Reg16 _ | Operand.Mem16 _ _ =>
    match s0.rm_value16 inst.dest with
    | none => none
    | some (op, s1) =>
    let res := (s1.regs.ax * op) % 4294967296
    let s2 := { s1 with regs := { s1.regs with ax := res % 65536, dx := (res >>> 16) % 65536 } }
    if s2.regs.dx != 0 then
      some { s2 with regs :=
        { s2.regs with flags := Flags.set_cf (Flags.set_of s2.regs.flags) } }
    else some s2
  | _ => none

/-- `Cpu::imul`.  In the 8-bit form the source zero-extends AL and the operand
into `i16` (`as i16` from unsigned types), so the product equals the unsigned
one; the CF/OF condition tests `get_ah() != 0xff`. -/
def imul (s : Cpu) (inst : Instruction) : Option Cpu :=
  let s0 := { s with regs :=
    { s.regs with flags := Flags.clear_cf (Flags.clear_of s.regs.flags) } }
  match inst.dest with
  | Operand.Reg8 _ | Operand.Mem8 _ _ =>
    match s0.rm_value8 inst.dest with
    | none => none
    | some (op, s1) =>
    let s2 := { s1 with regs := { s1.regs with ax := ofI16 ((s1.regs.get_al : Int) * (op : Int)) } }
    if s2.regs.get_ah != 0xff then
      some { s2 with regs :=
        { s2.regs with flags := Flags.set_cf (Flags.set_of s2.regs.flags) } }
    else some s2
  | Operand.Reg16 _ | Operand.Mem16 _ _ =>
    match s0.rm_value16 inst.dest with
    | none => none
    | some (op, s1) =>
    let res := (((s1.regs.ax : Int) * toI16 op) % 4294967296).toNat
    let s2 := { s1 with regs := { s1.regs with ax := res % 65536, dx := (res >>> 16) % 65536 } }
    if s2.regs.dx != 0xffff then
      some { s2 with regs :=
        { s2.regs with flags := Flags.set_cf (Flags.set_of s2.regs.flags) } }
    else some s2
  | _ => none

/-- `i8::wrapping_div`; `none` models the division-by-zero panic. -/
def wdivI8 (a b : Int) : Option Int :=
  if b = 0 then none
  else if a = -128 ∧ b = -1 then some (-128)
  else some (Int.tdiv a b)

/-- `i8::wrapping_rem`; `none` models the division-by-zero panic. -/
def wremI8 (a b : Int) : Option Int :=
  if b = 0 then none
  else if a = -128 ∧ b = -1 then some 0
  else some (Int.tmod a b)

/-- `i16::wrapping_div`. -/
def wdivI16 (a b : Int) : Option Int :=
  if b = 0 then none
  else if a = -32768 ∧ b = -1 then some (-32768)
  else some (Int.tdiv a b)

/-- `i16::wrapping_rem`. -/
def wremI16 (a b : Int) : Option Int :=
  if b = 0 then none
  else if a = -32768 ∧ b = -1 then some 0
  else some (Int.tmod a b)

/-- `Cpu::idiv`: signed division.  The 8-bit form divides AL (as `i8`) by the
operand, the 16-bit form divides AX (as `i16`); `none` models the panic on a
zero divisor.  No quotient-fit check is performed (overflow wraps). -/
def idiv (s : Cpu) (inst : Instruction) : Option Cpu :=
  match inst.dest with
  | Operand.Reg8 _ | Operand.Mem8 _ _ =>
    match s.rm_value8 inst.dest with
    | none => none
    | some (opv, s1) =>
    let op := toI8 opv
    match wdivI8 (toI8 s1.regs.get_al) op with
    | none => none
    | some res =>
    match wremI8 (toI8 s1.regs.get_al) op with
    | none => none
    | some resmod =>
      some { s1 with regs := (s1.regs.set_ah (ofI8 resmod)).set_al (ofI8 res) }
  | Operand.Reg16 _ | Operand.Mem16 _ _ =>
    match s.rm_value16 inst.dest with
    | none => none
    | some (opv, s1) =>
    let op := toI16 opv
    match wdivI16 (toI16 s1.regs.ax) op with
    | none => none
    | some res =>
    match wremI16 (toI16 s1.regs.ax) op with
    | none => none
    | some resmod =>
      some { s1 with regs := { s1.regs with ax := ofI16 res, dx := ofI16 resmod } }
  | _ => none

/-- `Cpu::div`: unsigned division.  The 8-bit form divides AL (not AX) by the
operand, placing quotient in AL and remainder in AH; the 16-bit form divides
AX (not DX:AX), quotient to AX and remainder to DX.  `none` models the panic
of `wrapping_div` on a zero divisor. -/
def div (s : Cpu) (inst : Instruction) : Option Cpu :=
  match inst.dest with
  | Operand.Reg8 _ | Operand.Mem8 _ _ =>
    match s.rm_value8 inst.dest with
    | none => none
    | some (op, s1) =>
    if op % 256 == 0 then none
    else
      let res := s1.regs.get_al / (op % 256)
      let resmod := s1.regs.get_al % (op % 256)
      some { s1 with regs := (s1.regs.set_ah resmod).set_al res }
  | Operand.Reg16 _ | Operand.Mem16 _ _ =>
    match s.rm_value16 inst.dest with
    | none => none
    | some (op, s1) =>
    if op % 65536 == 0 then none
    else
      let res := s1.regs.ax / (op % 65536)
      let resmod := s1.regs.ax % (op % 65536)
      some { s1 with regs := { s1.regs with ax := res % 65536, dx := resmod % 65536 } }
  | _ => none

/-- `Cpu::not`. -/
def not (s : Cpu) (inst : Instruction) : Option Cpu :=
  match inst.dest with
  | Operand.Reg8 r =>
    match s.get_reg r false with
    | none => none
    | some d => s.set_reg r false ((d % 256) ^^^ 0xff)
  | Operand.Mem8 p _ =>
    match s.read_mem_u8 p with
    | none => none
    | some (d, s1) => some (s1.write_mem_u8 p ((d % 256) ^^^ 0xff))
  | Operand.Reg16 r =>
    match s.get_reg r true with
    | none => none
    | some d => s.set_reg r true ((d % 65536) ^^^ 0xffff)
  | Operand.Mem16 p _ =>
    match s.read_mem_u16 p with
    | none => none
    | some (d, s1) => some (s1.write_mem_u16 p ((d % 65536) ^^^ 0xffff))
  | _ => none

/-- `Cpu::neg`. -/
def neg (s : Cpu) (inst : Instruction) : Option Cpu :=
  match inst.dest with
  | Operand.Reg8 r =>
    match s.get_reg r false with
    | none => none
    | some d => s.set_reg r false (neg8 d)
  | Operand.Mem8 p _ =>
    match s.read_mem_u8 p with
    | none => none
    | some (d, s1) => some (s1.write_mem_u8 p (neg8 d))
  | Operand.Reg16 r =>
    match s.get_reg r true with
    | none => none
    | some d => s.set_reg r true (neg16 d)
  | Operand.Mem16 p _ =>
    match s.read_mem_u16 p with
    | none => none
    | some (d, s1) => some (s1.write_mem_u16 p (neg16 d))
  | _ => none

/-- `Cpu::int`. -/
def int (s : Cpu) (inst : Instruction) : Option Cpu :=
  let s1 := ((s.push (Flags.to_u16 s.regs.flags)).push s.regs.cs)
  let s2 := s1.push s1.regs.ip
  let s3 := { s2 with regs := { s2.regs with flags := Flags.clear_if s2.regs.flags } }
  match inst.dest with
  | Operand.Imm8 imm =>
    let offt := (imm * 4) % 4294967296
    match s3.read_mem_u16 offt with
    | none => none
    | some (v, s4) =>
    match s4.read_mem_u16 ((offt + 2) % 4294967296) with
    | none => none
    | some (c, s5) => some { s5 with regs := { s5.regs with ip := v, cs := c } }
  | _ => none

/-- `Cpu::into`. -/
def into (s : Cpu) : Option Cpu :=
  let s1 := ((s.push (Flags.to_u16 s.regs.flags)).push s.regs.cs)
  let s2 := s1.push s1.regs.ip
  if Flags.of s2.regs.flags then
    let s3 := { s2 with regs := { s2.regs with flags := Flags.clear_if s2.regs.flags } }
    let offt := 16
    match s3.read_mem_u16 offt with
    | none => none
    | some (v, s4) =>
    match s4.read_mem_u16 (offt + 2) with
    | none => none
    | some (c, s5) => some { s5 with regs := { s5.regs with ip := v, cs := c } }
  else some s2

/-- `Cpu::iret`. -/
def iret (s : Cpu) : Option Cpu :=
  match s.pop with
  | none => none
  | some (v, s1) =>
  let s2 := { s1 with regs := { s1.regs with ip := v } }
  match s2.pop with
  | none => none
  | some (c, s3) =>
  let s4 := { s3 with regs := { s3.regs with cs := c } }
  match s4.pop with
  | none => none
  | some (fv, s5) =>
    some { s5 with regs := { s5.regs with flags := Flags.set_from_u16 fv } }

/-- `Cpu::hlt`. -/
def hlt (s : Cpu) : Cpu := { s with halt := true }

end Cpu

/-- `self.mem.read_i8() as i16 as u16`: sign-extension of a byte to 16 bits. -/
def sx8_16 (v : Nat) : Nat := ofI16 (toI8 v)

namespace Cpu

/-- Reads one byte from the instruction stream, threading the state. -/
def read8s (s : Cpu) : Option (Nat × Cpu) :=
  match s.mem.read_u8 with
  | none => none
  | some (v, m) => some (v, { s with mem := m })

/-- Reads one little-endian word from the instruction stream. -/
def read16s (s : Cpu) : Option (Nat × Cpu) :=
  match s.mem.read_u16 with
  | none => none
  | some (v, m) => some (v, { s with mem := m })

/-- The two-operand register/memory decode repeated verbatim in `Cpu::fetch`
for the groups 0,2,4,6,8,10,12,14 (arithmetic), 33 (TEST) and 34 (MOV):
reads the mod/reg/rm byte, resolves the `rm` operand, and orders the
operands according to the `d` bit. -/
def decode_rm (s : Cpu) (op : Opcode) (b1 : Nat) : Option (Instruction × Cpu) :=
  match s.read8s with
  | none => none
  | some (b2, s1) =>
  let regOp : Operand :=
    if Byte1.word b1 then Operand.Reg16 (Byte2.reg b2) else Operand.Reg8 (Byte2.reg b2)
  match (match Byte2.modd b2 with
         | 3 =>
           if Byte1.word b1 then some (Operand.Reg16 (Byte2.rm b2), s1)
           else some (Operand.Reg8 (Byte2.rm b2), s1)
         | _ => s1.calc_op_displacement b1 b2) with
  | none => none
  | some (rmOp, s2) =>
  if Byte1.reg_is_dest b1 then some (⟨op, regOp, rmOp⟩, s2)
  else some (⟨op, rmOp, regOp⟩, s2)

/-- The body of `Cpu::fetch` after the first byte has been read: the dispatch
on the primary opcode group `b1 >> 2`.  `none` models the `unimplemented!`,
`unreachable!` and `panic!` arms and failing stream reads. -/
def decode (s : Cpu) (b1 : Nat) : Option (Instruction × Cpu) :=
  match Byte1.opcode b1 with
  | 0 => s.decode_rm Opcode.Add b1
  | 1 =>
    match b1 &&& 0b11 with
    | 0 =>
      match s.read8s with
      | none => none
      | some (v, s1) => some (⟨Opcode.Add, Operand.Reg8 0, Operand.Imm8 v⟩, s1)
    | 1 =>
      match s.read16s with
      | none => none
      | some (v, s1) => some (⟨Opcode.Add, Operand.Reg16 0, Operand.Imm16 v⟩, s1)
    | 2 => some (⟨Opcode.PushEs, Operand.Reg8 0, Operand.Imm8 0⟩, s)
    | 3 => some (⟨Opcode.PopEs, Operand.Reg8 0, Operand.Imm8 0⟩, s)
    | _ => none
  | 2 => s.decode_rm Opcode.Or b1
  | 3 =>
    match b1 &&& 0b11 with
    | 0 =>
      match s.read8s with
      | none => none
      | some (v, s1) => some (⟨Opcode.Or, Operand.Reg8 0, Operand.Imm8 v⟩, s1)
    | 1 =>
      match s.read16s with
      | none => none
      | some (v, s1) => some (⟨Opcode.Or, Operand.Reg16 0, Operand.Imm16 v⟩, s1)
    | 2 => some (⟨Opcode.PushCs, Operand.Reg8 0, Operand.Imm8 0⟩, s)
    | _ => none
  | 4 => s.decode_rm Opcode.Adc b1
  | 5 =>
    match b1 &&& 0b11 with
    | 0 =>
      match s.read8s with
      | none => none
      | some (v, s1) => some (⟨Opcode.Adc, Operand.Reg8 0, Operand.Imm8 v⟩, s1)
    | 1 =>
      match s.read16s with
      | none => none
      | some (v, s1) => some (⟨Opcode.Adc, Operand.Reg16 0, Operand.Imm16 v⟩, s1)
    | 2 => some (⟨Opcode.PushSs, Operand.Reg8 0, Operand.Imm8 0⟩, s)
    | 3 => some (⟨Opcode.PopSs, Operand.Reg8 0, Operand.Imm8 0⟩, s)
    | _ => none
  | 6 => s.decode_rm Opcode.Sbb b1
  | 7 =>
    match b1 &&& 0b11 with
    | 0 =>
      match s.read8s with
      | none => none
      | some (v, s1) => some (⟨Opcode.Sbb, Operand.Reg8 0, Operand.Imm8 v⟩, s1)
    | 1 =>
      match s.read16s with
      | none => none
      | some (v, s1) => some (⟨Opcode.Sbb, Operand.Reg16 0, Operand.Imm16 v⟩, s1)
    | 2 => some (⟨Opcode.PushDs, Operand.Reg8 0, Operand.Imm8 0⟩, s)
    | 3 => some (⟨Opcode.PopDs, Operand.Reg8 0, Operand.Imm8 0⟩, s)
    | _ => none
  | 8 => s.decode_rm Opcode.And b1
  | 9 =>
    match b1 &&& 0b11 with
    | 0 =>
      match s.read8s with
      | none => none
      | some (v, s1) => some (⟨Opcode.And, Operand.Reg8 0, Operand.Imm8 v⟩, s1)
    | 1 =>
      -- The source decodes this arm to Opcode::Add (not And), transcribed as is.
      match s.read16s with
      | none => none
      | some (v, s1) => some (⟨Opcode.Add, Operand.Reg16 0, Operand.Imm16 v⟩, s1)
    | 2 => some (⟨Opcode.OverrideEs, Operand.Reg8 0, Operand.Imm8 0⟩, s)
    | 3 => some (⟨Opcode.Daa, Operand.Reg8 0, Operand.Imm8 0⟩, s)
    | _ => none
  | 10 => s.decode_rm Opcode.Sub b1
  | 11 =>
    match b1 &&& 0b11 with
    | 0 =>
      match s.read8s with
      | none => none
      | some (v, s1) => some (⟨Opcode.Sub, Operand.Reg8 0, Operand.Imm8 v⟩, s1)
    | 1 =>
      match s.read16s with
      | none => none
      | some (v, s1) => some (⟨Opcode.Sub, Operand.Reg16 0, Operand.Imm16 v⟩, s1)
    | 2 => some (⟨Opcode.OverrideCs, Operand.Reg8 0, Operand.Imm8 0⟩, s)
    | 3 => some (⟨Opcode.Das, Operand.Reg8 0, Operand.Imm8 0⟩, s)
    | _ => none
  | 12 => s.decode_rm Opcode.Xor b1
  | 13 =>
    match b1 &&& 0b11 with
    | 0 =>
      match s.read8s with
      | none => none
      | some (v, s1) => some (⟨Opcode.Xor, Operand.Reg8 0, Operand.Imm8 v⟩, s1)
    | 1 =>
      match s.read16s with
      | none => none
      | some (v, s1) => some (⟨Opcode.Xor, Operand.Reg16 0, Operand.Imm16 v⟩, s1)
    | 2 => some (⟨Opcode.OverrideSs, Operand.Reg8 0, Operand.Imm8 0⟩, s)
    | 3 => some (⟨Opcode.Aaa, Operand.Reg8 0, Operand.Imm8 0⟩, s)
    | _ => none
  | 14 => s.decode_rm Opcode.Cmp b1
  | 15 =>
    match b1 &&& 0b11 with
    | 0 =>
      match s.read8s with
      | none => none
      | some (v, s1) => some (⟨Opcode.Cmp, Operand.Reg8 0, Operand.Imm8 v⟩, s1)
    | 1 =>
      match s.read16s with
      | none => none
      | some (v, s1) => some (⟨Opcode.Cmp, Operand.Reg16 0, Operand.Imm16 v⟩, s1)
    | 2 => some (⟨Opcode.OverrideDs, Operand.Reg8 0, Operand.Imm8 0⟩, s)
    | 3 => some (⟨Opcode.Aas, Operand.Reg8 0, Operand.Imm8 0⟩, s)
    | _ => none
  | 16 =>
    match b1 &&& 0b11 with
    | 0 => some (⟨Opcode.IncAx, Operand.Reg8 0, Operand.Reg8 0⟩, s)
    | 1 => some (⟨Opcode.IncCx, Operand.Reg16 0, Operand.Reg8 0⟩, s)
    | 2 => some (⟨Opcode.IncDx, Operand.Reg8 0, Operand.Reg8 0⟩, s)
    | 3 => some (⟨Opcode.IncBx, Operand.Reg8 0, Operand.Reg8 0⟩, s)
    | _ => none
  | 17 =>
    match b1 &&& 0b11 with
    | 0 => some (⟨Opcode.IncSp, Operand.Reg8 0, Operand.Reg8 0⟩, s)
    | 1 => some (⟨Opcode.IncBp, Operand.Reg16 0, Operand.Reg8 0⟩, s)
    | 2 => some (⟨Opcode.IncSi, Operand.Reg8 0, Operand.Reg8 0⟩, s)
    | 3 => some (⟨Opcode.IncDi, Operand.Reg8 0, Operand.Reg8 0⟩, s)
    | _ => none
  | 18 =>
    match b1 &&& 0b11 with
    | 0 => some (⟨Opcode.DecAx, Operand.Reg8 0, Operand.Reg8 0⟩, s)
    | 1 => some (⟨Opcode.DecCx, Operand.Reg16 0, Operand.Reg8 0⟩, s)
    | 2 => some (⟨Opcode.DecDx, Operand.Reg8 0, Operand.Reg8 0⟩, s)
    | 3 => some (⟨Opcode.DecBx, Operand.Reg8 0, Operand.Reg8 0⟩, s)
    | _ => none
  | 19 =>
    match b1 &&& 0b11 with
    | 0 => some (⟨Opcode.DecSp, Operand.Reg8 0, Operand.Reg8 0⟩, s)
    | 1 => some (⟨Opcode.DecBp, Operand.Reg16 0, Operand.Reg8 0⟩, s)
    | 2 => some (⟨Opcode.DecSi, Operand.Reg8 0, Operand.Reg8 0⟩, s)
    | 3 => some (⟨Opcode.DecDi, Operand.Reg8 0, Operand.Reg8 0⟩, s)
    | _ => none
  | 20 =>
    match b1 &&& 0b11 with
    | 0 => some (⟨Opcode.PushAx, Operand.Reg8 0, Operand.Reg8 0⟩, s)
    | 1 => some (⟨Opcode.PushCx, Operand.Reg16 0, Operand.Reg8 0⟩, s)
    | 2 => some (⟨Opcode.PushDx, Operand.Reg8 0, Operand.Reg8 0⟩, s)
    | 3 => some (⟨Opcode.PushBx, Operand.Reg8 0, Operand.Reg8 0⟩, s)
    | _ => none
  | 21 =>
    match b1 &&& 0b11 with
    | 0 => some (⟨Opcode.PushSp, Operand.Reg8 0, Operand.Reg8 0⟩, s)
    | 1 => some (⟨Opcode.PushBp, Operand.Reg16 0, Operand.Reg8 0⟩, s)
    | 2 => some (⟨Opcode.PushSi, Operand.Reg8 0, Operand.Reg8 0⟩, s)
    | 3 => some (⟨Opcode.PushDi, Operand.Reg8 0, Operand.Reg8 0⟩, s)
    | _ => none
  | 22 =>
    match b1 &&& 0b11 with
    | 0 => some (⟨Opcode.PopAx, Operand.Reg8 0, Operand.Reg8 0⟩, s)
    | 1 => some (⟨Opcode.PopCx, Operand.Reg16 0, Operand.Reg8 0⟩, s)
    | 2 => some (⟨Opcode.PopDx, Operand.Reg8 0, Operand.Reg8 0⟩, s)
    | 3 => some (⟨Opcode.PopBx, Operand.Reg8 0, Operand.Reg8 0⟩, s)
    | _ => none
  | 23 =>
    match b1 &&& 0b11 with
    | 0 => some (⟨Opcode.PopSp, Operand.Reg8 0, Operand.Reg8 0⟩, s)
    | 1 => some (⟨Opcode.PopBp, Operand.Reg16 0, Operand.Reg8 0⟩, s)
    | 2 => some (⟨Opcode.PopSi, Operand.Reg8 0, Operand.Reg8 0⟩, s)
    | 3 => some (⟨Opcode.PopDi, Operand.Reg8 0, Operand.Reg8 0⟩, s)
    | _ => none
  | 28 =>
    match s.read8s with
    | none => none
    | some (v, s1) =>
    match b1 &&& 0b11 with
    | 0 => some (⟨Opcode.Jo, Operand.Imm8 v, Operand.Reg8 0⟩, s1)
    | 1 => some (⟨Opcode.Jno, Operand.Imm8 v, Operand.Reg8 0⟩, s1)
    | 2 => some (⟨Opcode.Jb, Operand.Imm8 v, Operand.Reg8 0⟩, s1)
    | 3 => some (⟨Opcode.Jnb, Operand.Imm8 v, Operand.Reg8 0⟩, s1)
    | _ => none
  | 29 =>
    match s.read8s with
    | none => none
    | some (v, s1) =>
    match b1 &&& 0b11 with
    | 0 => some (⟨Opcode.Jz, Operand.Imm8 v, Operand.Reg8 0⟩, s1)
    | 1 => some (⟨Opcode.Jnz, Operand.Imm8 v, Operand.Reg8 0⟩, s1)
    | 2 => some (⟨Opcode.Jbe, Operand.Imm8 v, Operand.Reg8 0⟩, s1)
    | 3 => some (⟨Opcode.Jnbe, Operand.Imm8 v, Operand.Reg8 0⟩, s1)
    | _ => none
  | 30 =>
    match s.read8s with
    | none => none
    | some (v, s1) =>
    match b1 &&& 0b11 with
    | 0 => some (⟨Opcode.Js, Operand.Imm8 v, Operand.Reg8 0⟩, s1)
    | 1 => some (⟨Opcode.Jns, Operand.Imm8 v, Operand.Reg8 0⟩, s1)
    | 2 => some (⟨Opcode.Jp, Operand.Imm8 v, Operand.Reg8 0⟩, s1)
    | 3 => some (⟨Opcode.Jnp, Operand.Imm8 v, Operand.Reg8 0⟩, s1)
    | _ => none
  | 31 =>
    match s.read8s with
    | none => none
    | some (v, s1) =>
    match b1 &&& 0b11 with
    | 0 => some (⟨Opcode.Jl, Operand.Imm8 v, Operand.Reg8 0⟩, s1)
    | 1 => some (⟨Opcode.Jnl, Operand.Imm8 v, Operand.Reg8 0⟩, s1)
    | 2 => some (⟨Opcode.Jle, Operand.Imm8 v, Operand.Reg8 0⟩, s1)
    | 3 => some (⟨Opcode.Jnle, Operand.Imm8 v, Operand.Reg8 0⟩, s1)
    | _ => none
  | 32 =>
    match s.read8s with
    | none => none
    | some (b2, s1) =>
    match b1 &&& 0b11 with
    | 0 =>
      match (match Byte2.reg b2 with
             | 0 => some Opcode.Add
             | 1 => some Opcode.Or
             | 2 => some Opcode.Adc
             | 3 => some Opcode.Sbb
             | 4 => some Opcode.And
             | 5 => some Opcode.Sub
             | 6 => some Opcode.Xor
             | 7 => some Opcode.Cmp
             | _ => none) with
      | none => none
      | some op =>
      match s1.addr_mod b1 b2 with
      | none => none
      | some (d, s2) =>
      match s2.read8s with
      | none => none
      | some (v, s3) => some (⟨op, d, Operand.Imm8 v⟩, s3)
    | 1 =>
      match (match Byte2.reg b2 with
             | 0 => some Opcode.Add
             | 1 => some Opcode.Or
             | 2 => some Opcode.Adc
             | 3 => some Opcode.Sbb
             | 4 => some Opcode.And
             | 5 => some Opcode.Sub
             | 6 => some Opcode.Xor
             | 7 => some Opcode.Cmp
             | _ => none) with
      | none => none
      | some op =>
      match s1.addr_mod b1 b2 with
      | none => none
      | some (d, s2) =>
      match s2.read16s with
      | none => none
      | some (v, s3) => some (⟨op, d, Operand.Imm16 v⟩, s3)
    | 2 =>
      match (match Byte2.reg b2 with
             | 0 => some Opcode.Add
             | 2 => some Opcode.Adc
             | 3 => some Opcode.Sbb
             | 5 => some Opcode.Sub
             | 7 => some Opcode.Cmp
             | _ => none) with
      | none => none
      | some op =>
      match s1.addr_mod b1 b2 with
      | none => none
      | some (d, s2) =>
      match s2.read8s with
      | none => none
      | some (v, s3) => some (⟨op, d, Operand.Imm8 v⟩, s3)
    | 3 =>
      match (match Byte2.reg b2 with
             | 0 => some Opcode.Add
             | 2 => some Opcode.Adc
             | 3 => some Opcode.Sbb
             | 5 => some Opcode.Sub
             | 7 => some Opcode.Cmp
             | _ => none) with
      | none => none
      | some op =>
      match s1.addr_mod b1 b2 with
      | none => none
      | some (d, s2) =>
      match s2.read8s with
      | none => none
      | some (v, s3) => some (⟨op, d, Operand.Imm16 (sx8_16 v)⟩, s3)
    | _ => none
  | 33 => s.decode_rm Opcode.Test b1
  | 34 => s.decode_rm Opcode.Mov b1
  | 35 =>
    match s.read8s with
    | none => none
    | some (b2, s1) =>
    match b1 &&& 0b11 with
    | 0 =>
      let b1w := Byte1.set_word b1
      if Byte2.reg b2 &&& 0b100 == 0 then
        match s1.addr_mod b1w b2 with
        | none => none
        | some (d, s2) =>
          some (⟨Opcode.Mov, d, Operand.Seg (Byte2.reg b2 &&& 0b11)⟩, s2)
      else none
    | 1 =>
      let b1w := Byte1.set_word b1
      match s1.addr_mod b1w b2 with
      | none => none
      | some (src, s2) => some (⟨Opcode.Lea, Operand.Reg16 (Byte2.reg b2), src⟩, s2)
    | 2 =>
      let b1w := Byte1.set_word b1
      if Byte2.reg b2 &&& 0b100 == 0 then
        match s1.addr_mod b1w b2 with
        | none => none
        | some (src, s2) =>
          some (⟨Opcode.Mov, Operand.Seg (Byte2.reg b2 &&& 0b11), src⟩, s2)
      else none
    | 3 =>
      match Byte2.reg b2 with
      | 0 =>
        match s1.addr_mod b1 b2 with
        | none => none
        | some (d, s2) => some (⟨Opcode.Pop, d, Operand.Reg8 0⟩, s2)
      | _ => none
    | _ => none
  | 36 =>
    match b1 &&& 0b11 with
    | 0 => some (⟨Opcode.Xchg, Operand.Reg16 0, Operand.Reg16 0⟩, s)
    | 1 => some (⟨Opcode.Xchg, Operand.Reg16 0, Operand.Reg16 1⟩, s)
    | 2 => some (⟨Opcode.Xchg, Operand.Reg16 0, Operand.Reg16 2⟩, s)
    | 3 => some (⟨Opcode.Xchg, Operand.Reg16 0, Operand.Reg16 3⟩, s)
    | _ => none
  | 37 =>
    match b1 &&& 0b11 with
    | 0 => some (⟨Opcode.Xchg, Operand.Reg16 0, Operand.Reg16 4⟩, s)
    | 1 => some (⟨Opcode.Xchg, Operand.Reg16 0, Operand.Reg16 5⟩, s)
    | 2 => some (⟨Opcode.Xchg, Operand.Reg16 0, Operand.Reg16 6⟩, s)
    | 3 => some (⟨Opcode.Xchg, Operand.Reg16 0, Operand.Reg16 7⟩, s)
    | _ => none
  | 38 =>
    match b1 &&& 0b11 with
    | 0 => some (⟨Opcode.Cbw, Operand.Reg16 0, Operand.Reg16 0⟩, s)
    | 1 => some (⟨Opcode.Cwd, Operand.Reg16 0, Operand.Reg16 1⟩, s)
    | 2 =>
      match s.read16s with
      | none => none
      | some (v, s1) =>
      match s1.read16s with
      | none => none
      | some (v2, s2) => some (⟨Opcode.CallFar, Operand.Imm16 v, Operand.Imm16 v2⟩, s2)
    | 3 => some (⟨Opcode.Wait, Operand.Reg16 0, Operand.Reg16 3⟩, s)
    | _ => none
  | 39 =>
    match b1 &&& 0b11 with
    | 0 => some (⟨Opcode.Pushf, Operand.Reg16 0, Operand.Reg16 0⟩, s)
    | 1 => some (⟨Opcode.Popf, Operand.Reg16 0, Operand.Reg16 1⟩, s)
    | 2 => some (⟨Opcode.Sahf, Operand.Reg16 0, Operand.Reg16 2⟩, s)
    | 3 => some (⟨Opcode.Lahf, Operand.Reg16 0, Operand.Reg16 3⟩, s)
    | _ => none
  | 40 =>
    match s.read16s with
    | none => none
    | some (off, s1) =>
    let ad := s1.ea Segment.Ds off
    match b1 &&& 0b11 with
    | 0 => some (⟨Opcode.Mov, Operand.Reg8 0, Operand.Mem8 ad 0⟩, s1)
    | 1 => some (⟨Opcode.Mov, Operand.Reg16 0, Operand.Mem16 ad 0⟩, s1)
    | 2 => some (⟨Opcode.Mov, Operand.Mem8 ad 0, Operand.Reg8 0⟩, s1)
    | 3 => some (⟨Opcode.Mov, Operand.Mem16 ad 0, Operand.Reg16 0⟩, s1)
    | _ => none
  | 41 =>
    match b1 &&& 0b11 with
    | 0 => some (⟨Opcode.Movsb, Operand.Reg8 0, Operand.Reg8 0⟩, s)
    | 1 => some (⟨Opcode.Movsw, Operand.Reg8 0, Operand.Reg8 0⟩, s)
    | 2 => some (⟨Opcode.Cmpsb, Operand.Reg8 0, Operand.Reg8 0⟩, s)
    | 3 => some (⟨Opcode.Cmpsw, Operand.Reg8 0, Operand.Reg8 0⟩, s)
    | _ => none
  | 42 =>
    match b1 &&& 0b11 with
    | 0 =>
      match s.read8s with
      | none => none
      | some (v, s1) => some (⟨Opcode.Test, Operand.Reg8 0, Operand.Imm8 v⟩, s1)
    | 1 =>
      match s.read16s with
      | none => none
      | some (v, s1) => some (⟨Opcode.Test, Operand.Reg16 0, Operand.Imm16 v⟩, s1)
    | 2 => some (⟨Opcode.Stosb, Operand.Reg8 0, Operand.Reg8 0⟩, s)
    | 3 => some (⟨Opcode.Stosw, Operand.Reg8 0, Operand.Reg8 0⟩, s)
    | _ => none
  | 43 =>
    match b1 &&& 0b11 with
    | 0 => some (⟨Opcode.Lodsb, Operand.Reg8 0, Operand.Reg8 0⟩, s)
    | 1 => some (⟨Opcode.Lodsw, Operand.Reg8 0, Operand.Reg8 0⟩, s)
    | 2 => some (⟨Opcode.Scasb, Operand.Reg8 0, Operand.Reg8 0⟩, s)
    | 3 => some (⟨Opcode.Scasw, Operand.Reg8 0, Operand.Reg8 0⟩, s)
    | _ => none
  | 44 =>
    match s.read8s with
    | none => none
    | some (v, s1) =>
    match b1 &&& 0b11 with
    | 0 => some (⟨Opcode.Mov, Operand.Reg8 0, Operand.Imm8 v⟩, s1)
    | 1 => some (⟨Opcode.Mov, Operand.Reg8 1, Operand.Imm8 v⟩, s1)
    | 2 => some (⟨Opcode.Mov, Operand.Reg8 2, Operand.Imm8 v⟩, s1)
    | 3 => some (⟨Opcode.Mov, Operand.Reg8 3, Operand.Imm8 v⟩, s1)
    | _ => none
  | 45 =>
    match s.read8s with
    | none => none
    | some (v, s1) =>
    match b1 &&& 0b11 with
    | 0 => some (⟨Opcode.Mov, Operand.Reg8 4, Operand.Imm8 v⟩, s1)
    | 1 => some (⟨Opcode.Mov, Operand.Reg8 5, Operand.Imm8 v⟩, s1)
    | 2 => some (⟨Opcode.Mov, Operand.Reg8 6, Operand.Imm8 v⟩, s1)
    | 3 => some (⟨Opcode.Mov, Operand.Reg8 7, Operand.Imm8 v⟩, s1)
    | _ => none
  | 46 =>
    match s.read16s with
    | none => none
    | some (v, s1) =>
    match b1 &&& 0b11 with
    | 0 => some (⟨Opcode.Mov, Operand.Reg16 0, Operand.Imm16 v⟩, s1)
    | 1 => some (⟨Opcode.Mov, Operand.Reg16 1, Operand.Imm16 v⟩, s1)
    | 2 => some (⟨Opcode.Mov, Operand.Reg16 2, Operand.Imm16 v⟩, s1)
    | 3 => some (⟨Opcode.Mov, Operand.Reg16 3, Operand.Imm16 v⟩, s1)
    | _ => none
  | 47 =>
    match s.read16s with
    | none => none
    | some (v, s1) =>
    match b1 &&& 0b11 with
    | 0 => some (⟨Opcode.Mov, Operand.Reg16 4, Operand.Imm16 v⟩, s1)
    | 1 => some (⟨Opcode.Mov, Operand.Reg16 5, Operand.Imm16 v⟩, s1)
    | 2 => some (⟨Opcode.Mov, Operand.Reg16 6, Operand.Imm16 v⟩, s1)
    | 3 => some (⟨Opcode.Mov, Operand.Reg16 7, Operand.Imm16 v⟩, s1)
    | _ => none
  | 48 =>
    match b1 &&& 0b11 with
    | 2 =>
      match s.read16s with
      | none => none
      | some (v, s1) => some (⟨Opcode.Ret, Operand.Imm16 v, Operand.Reg8 0⟩, s1)
    | 3 => some (⟨Opcode.Ret, Operand.Reg8 0, Operand.Reg8 0⟩, s)
    | _ => none
  | 49 =>
    match s.read8s with
    | none => none
    | some (b2, s1) =>
    match b1 &&& 0b11 with
    | 0 =>
      let b1w := Byte1.set_word b1
      match s1.calc_op_displacement b1w b2 with
      | none => none
      | some (src, s2) => some (⟨Opcode.Les, Operand.Reg16 (Byte2.reg b2), src⟩, s2)
    | 1 =>
      let b1w := Byte1.set_word b1
      match s1.calc_op_displacement b1w b2 with
      | none => none
      | some (src, s2) => some (⟨Opcode.Lds, Operand.Reg16 (Byte2.reg b2), src⟩, s2)
    | 2 =>
      match Byte2.reg b2 with
      | 0 =>
        match s1.calc_op_displacement b1 b2 with
        | none => none
        | some (d, s2) =>
        match s2.read8s with
        | none => none
        | some (v, s3) => some (⟨Opcode.Mov, d, Operand.Imm8 v⟩, s3)
      | _ => none
    | 3 =>
      match Byte2.reg b2 with
      | 0 =>
        match s1.calc_op_displacement b1 b2 with
        | none => none
        | some (d, s2) =>
        match s2.read16s with
        | none => none
        | some (v, s3) => some (⟨Opcode.Mov, d, Operand.Imm16 v⟩, s3)
      | _ => none
    | _ => none
  | 50 =>
    match b1 &&& 0b11 with
    | 2 =>
      match s.read16s with
      | none => none
      | some (v, s1) => some (⟨Opcode.Retf, Operand.Imm16 v, Operand.Reg8 0⟩, s1)
    | 3 => some (⟨Opcode.Retf, Operand.Reg8 0, Operand.Reg8 0⟩, s)
    | _ => none
  | 51 =>
    match b1 &&& 0b11 with
    | 0 => some (⟨Opcode.Int, Operand.Imm8 3, Operand.Reg8 0⟩, s)
    | 1 =>
      match s.read8s with
      | none => none
      | some (v, s1) => some (⟨Opcode.Int, Operand.Imm8 v, Operand.Imm8 0⟩, s1)
    | 2 => some (⟨Opcode.Into, Operand.Reg8 0, Operand.Reg8 0⟩, s)
    | 3 => some (⟨Opcode.Iret, Operand.Reg8 0, Operand.Reg8 0⟩, s)
    | _ => none
  | 52 =>
    match s.read8s with
    | none => none
    | some (b2, s1) =>
    match (match Byte2.reg b2 with
           | 0 => some Opcode.Rol
           | 1 => some Opcode.Ror
           | 2 => some Opcode.Rcl
           | 3 => some Opcode.Rcr
           | 4 => some Opcode.Shl
           | 5 => some Opcode.Shr
           | 7 => some Opcode.Sar
           | _ => none) with
    | none => none
    | some op =>
    match s1.addr_mod b1 b2 with
    | none => none
    | some (d, s2) =>
    match b1 &&& 0b11 with
    | 0 | 1 => some (⟨op, d, Operand.Imm8 1⟩, s2)
    | 2 | 3 => some (⟨op, d, Operand.Reg8 1⟩, s2)
    | _ => none
  | 53 =>
    match b1 &&& 0b11 with
    | 0 =>
      match s.read8s with
      | none => none
      | some (b2, s1) =>
        if b2 == 0b1010 then some (⟨Opcode.Aam, Operand.Reg8 0, Operand.Reg8 0⟩, s1)
        else none
    | 1 =>
      match s.read8s with
      | none => none
      | some (b2, s1) =>
        if b2 == 0b1010 then some (⟨Opcode.Aad, Operand.Reg8 0, Operand.Reg8 0⟩, s1)
        else none
    | 3 => some (⟨Opcode.Xlat, Operand.Reg8 0, Operand.Reg8 0⟩, s)
    | _ => none
  | 56 =>
    match s.read8s with
    | none => none
    | some (v, s1) =>
    match b1 &&& 0b11 with
    | 0 => some (⟨Opcode.Loopne, Operand.Imm8 v, Operand.Reg8 0⟩, s1)
    | 1 => some (⟨Opcode.Loope, Operand.Imm8 v, Operand.Reg8 0⟩, s1)
    | 2 => some (⟨Opcode.Loop, Operand.Imm8 v, Operand.Reg8 0⟩, s1)
    | 3 => some (⟨Opcode.Jcxz, Operand.Imm8 v, Operand.Imm8 0⟩, s1)
    | _ => none
  | 57 =>
    match s.read8s with
    | none => none
    | some (v, s1) =>
    match b1 &&& 0b11 with
    | 0 => some (⟨Opcode.In, Operand.Reg8 0, Operand.Imm8 v⟩, s1)
    | 1 => some (⟨Opcode.In, Operand.Reg16 0, Operand.Imm8 v⟩, s1)
    | 2 => some (⟨Opcode.Out, Operand.Reg8 0, Operand.Imm8 v⟩, s1)
    | 3 => some (⟨Opcode.Out, Operand.Reg16 0, Operand.Imm8 v⟩, s1)
    | _ => none
  | 58 =>
    match b1 &&& 0b11 with
    | 0 =>
      match s.read16s with
      | none => none
      | some (v, s1) => some (⟨Opcode.CallNear, Operand.Reg8 0, Operand.Imm16 v⟩, s1)
    | 1 =>
      match s.read16s with
      | none => none
      | some (v, s1) => some (⟨Opcode.JmpNear, Operand.Reg16 0, Operand.Imm16 v⟩, s1)
    | 2 =>
      match s.read16s with
      | none => none
      | some (v, s1) =>
      match s1.read16s with
      | none => none
      | some (v2, s2) => some (⟨Opcode.JmpFar, Operand.Imm16 v, Operand.Imm16 v2⟩, s2)
    | 3 =>
      match s.read8s with
      | none => none
      | some (v, s1) => some (⟨Opcode.JmpNear, Operand.Reg16 0, Operand.Imm8 v⟩, s1)
    | _ => none
  | 59 =>
    match b1 &&& 0b11 with
    | 0 => some (⟨Opcode.In, Operand.Reg8 0, Operand.Reg16 2⟩, s)
    | 1 => some (⟨Opcode.In, Operand.Reg16 0, Operand.Reg16 2⟩, s)
    | 2 => some (⟨Opcode.Out, Operand.Reg8 0, Operand.Reg16 2⟩, s)
    | 3 => some (⟨Opcode.Out, Operand.Reg16 0, Operand.Reg16 2⟩, s)
    | _ => none
  | 60 =>
    match b1 &&& 0b11 with
    | 0 => some (⟨Opcode.Lock, Operand.Reg8 0, Operand.Reg16 2⟩, s)
    | 2 => some (⟨Opcode.Repne, Operand.Reg8 0, Operand.Reg16 2⟩, s)
    | 3 => some (⟨Opcode.Rep, Operand.Reg16 0, Operand.Reg16 2⟩, s)
    | _ => none
  | 61 =>
    match b1 &&& 0b11 with
    | 0 => some (⟨Opcode.Hlt, Operand.Reg8 0, Operand.Reg16 2⟩, s)
    | 1 => some (⟨Opcode.Cmc, Operand.Reg8 0, Operand.Reg16 2⟩, s)
    | 2 =>
      match s.read8s with
      | none => none
      | some (b2, s1) =>
      match Byte2.reg b2 with
      | 0 =>
        match s1.addr_mod b1 b2 with
        | none => none
        | some (d, s2) =>
        match s2.read8s with
        | none => none
        | some (v, s3) => some (⟨Opcode.Test, d, Operand.Imm8 v⟩, s3)
      | 2 =>
        match s1.addr_mod b1 b2 with
        | none => none
        | some (d, s2) => some (⟨Opcode.Not, d, Operand.Imm8 0⟩, s2)
      | 3 =>
        match s1.addr_mod b1 b2 with
        | none => none
        | some (d, s2) => some (⟨Opcode.Neg, d, Operand.Imm8 0⟩, s2)
      | 4 =>
        match s1.addr_mod b1 b2 with
        | none => none
        | some (d, s2) => some (⟨Opcode.Mul, d, Operand.Imm8 0⟩, s2)
      | 5 =>
        match s1.addr_mod b1 b2 with
        | none => none
        | some (d, s2) => some (⟨Opcode.Imul, d, Operand.Imm8 0⟩, s2)
      | 6 =>
        match s1.addr_mod b1 b2 with
        | none => none
        | some (d, s2) => some (⟨Opcode.Div, d, Operand.Imm8 0⟩, s2)
      | 7 =>
        match s1.addr_mod b1 b2 with
        | none => none
        | some (d, s2) => some (⟨Opcode.Idiv, d, Operand.Imm8 0⟩, s2)
      | _ => none
    | 3 =>
      match s.read8s with
      | none => none
      | some (b2, s1) =>
      match Byte2.reg b2 with
      | 0 =>
        match s1.addr_mod b1 b2 with
        | none => none
        | some (d, s2) =>
        match s2.read16s with
        | none => none
        | some (v, s3) => some (⟨Opcode.Test, d, Operand.Imm16 v⟩, s3)
      | 2 =>
        match s1.addr_mod b1 b2 with
        | none => none
        | some (d, s2) => some (⟨Opcode.Not, d, Operand.Imm8 0⟩, s2)
      | 3 =>
        match s1.addr_mod b1 b2 with
        | none => none
        | some (d, s2) => some (⟨Opcode.Neg, d, Operand.Imm8 0⟩, s2)
      | 4 =>
        match s1.addr_mod b1 b2 with
        | none => none
        | some (d, s2) => some (⟨Opcode.Mul, d, Operand.Imm8 0⟩, s2)
      | 5 =>
        match s1.addr_mod b1 b2 with
        | none => none
        | some (d, s2) => some (⟨Opcode.Imul, d, Operand.Imm8 0⟩, s2)
      | 6 =>
        match s1.addr_mod b1 b2 with
        | none => none
        | some (d, s2) => some (⟨Opcode.Div, d, Operand.Imm8 0⟩, s2)
      | 7 =>
        match s1.addr_mod b1 b2 with
        | none => none
        | some (d, s2) => some (⟨Opcode.Idiv, d, Operand.Imm8 0⟩, s2)
      | _ => none
    | _ => none
  | 62 =>
    match b1 &&& 0b11 with
    | 0 => some (⟨Opcode.Clc, Operand.Reg8 0, Operand.Reg16 2⟩, s)
    | 1 => some (⟨Opcode.Stc, Operand.Reg16 0, Operand.Reg16 2⟩, s)
    | 2 => some (⟨Opcode.Cli, Operand.Reg8 0, Operand.Reg16 2⟩, s)
    | 3 => some (⟨Opcode.Sti, Operand.Reg16 0, Operand.Reg16 2⟩, s)
    | _ => none
  | 63 =>
    match b1 &&& 0b11 with
    | 0 => some (⟨Opcode.Cld, Operand.Reg8 0, Operand.Reg16 2⟩, s)
    | 1 => some (⟨Opcode.Std, Operand.Reg16 0, Operand.Reg16 2⟩, s)
    | 2 =>
      match s.read8s with
      | none => none
      | some (b2, s1) =>
      match Byte2.reg b2 with
      | 0 =>
        match s1.addr_mod b1 b2 with
        | none => none
        | some (d, s2) => some (⟨Opcode.Inc, d, Operand.Imm8 0⟩, s2)
      | 1 =>
        match s1.addr_mod b1 b2 with
        | none => none
        | some (d, s2) => some (⟨Opcode.Inc, d, Operand.Imm8 0⟩, s2)
      | _ => none
    | 3 =>
      match s.read8s with
      | none => none
      | some (b2, s1) =>
      match Byte2.reg b2 with
      | 0 =>
        match s1.addr_mod b1 b2 with
        | none => none
        | some (d, s2) => some (⟨Opcode.Inc, d, Operand.Imm8 0⟩, s2)
      | 1 =>
        match s1.addr_mod b1 b2 with
        | none => none
        | some (d, s2) => some (⟨Opcode.Inc, d, Operand.Imm8 0⟩, s2)
      | 2 =>
        match s1.addr_mod b1 b2 with
        | none => none
        | some (m, s2) => some (⟨Opcode.CallNear, Operand.Imm8 0, m⟩, s2)
      | 3 =>
        match s1.addr_mod b1 b2 with
        | none => none
        | some (m, s2) => some (⟨Opcode.CallFar, m, Operand.Imm8 0⟩, s2)
      | 4 =>
        match s1.addr_mod b1 b2 with
        | none => none
        | some (m, s2) => some (⟨Opcode.JmpNear, Operand.Imm8 0, m⟩, s2)
      | 5 =>
        match s1.addr_mod b1 b2 with
        | none => none
        | some (m, s2) => some (⟨Opcode.JmpFar, Operand.Imm8 0, m⟩, s2)
      | 6 =>
        match s1.addr_mod b1 b2 with
        | none => none
        | some (m, s2) => some (⟨Opcode.Push, Operand.Imm8 0, m⟩, s2)
      | _ => none
    | _ => none
  | _ => none

/-- `Cpu::fetch`.  Result levels: `none` = decode panic; `some (none, s)` =
end of program (`ip >= prog_size`); `some (some i, s)` = a decoded
instruction with IP advanced by the number of bytes consumed. -/
def fetch (s : Cpu) : Option (Option Instruction × Cpu) :=
  let s := { s with mem := s.mem.seek_to (s.code_addr s.regs.ip) }
  let old_pos := s.mem.pos
  if s.regs.ip ≥ s.prog_size then some (none, s)
  else
    match s.read8s with
    | none => none
    | some (b1, s1) =>
    match s1.decode b1 with
    | none => none
    | some (i, s2) =>
      some (some i,
        { s2 with regs := { s2.regs with ip := add16 s2.regs.ip (s2.mem.pos - old_pos) } })

end Cpu

/-- The `while self.regs.cx != 0` loop of `Cpu::rep` for
MOVS/STOS/LODS: execute, then decrement CX. -/
def Cpu.rep_loop (exec : Instruction → Cpu → Option Cpu) :
    Nat → Instruction → Cpu → Option Cpu
  | 0, _, _ => none
  | fuel + 1, instr, s =>
    if s.regs.cx != 0 then
      match exec instr s with
      | none => none
      | some s1 =>
        Cpu.rep_loop exec fuel instr
          { s1 with regs := { s1.regs with cx := sub16 s1.regs.cx 1 } }
    else some s

/-- `Cpu::repe`: the CMPS/SCAS loop of REP — breaks when ZF becomes 0. -/
def Cpu.repe (exec : Instruction → Cpu → Option Cpu) :
    Nat → Instruction → Cpu → Option Cpu
  | 0, _, _ => none
  | fuel + 1, instr, s =>
    if s.regs.cx != 0 then
      match exec instr s with
      | none => none
      | some s1 =>
        let s2 := { s1 with regs := { s1.regs with cx := sub16 s1.regs.cx 1 } }
        if !Flags.zf s2.regs.flags then some s2
        else Cpu.repe exec fuel instr s2
    else some s

/-- The CMPS/SCAS loop of `Cpu::repne` — breaks when ZF becomes 1. -/
def Cpu.repne_loop (exec : Instruction → Cpu → Option Cpu) :
    Nat → Instruction → Cpu → Option Cpu
  | 0, _, _ => none
  | fuel + 1, instr, s =>
    if s.regs.cx != 0 then
      match exec instr s with
      | none => none
      | some s1 =>
        let s2 := { s1 with regs := { s1.regs with cx := sub16 s1.regs.cx 1 } }
        if Flags.zf s2.regs.flags then some s2
        else Cpu.repne_loop exec fuel instr s2
    else some s

/-- `Cpu::rep`: fetches the next instruction and repeats it according to its
kind (string moves loop on CX; compares/scans go through `repe`; anything
else executes once). -/
def Cpu.rep (exec : Instruction → Cpu → Option Cpu) (fuel : Nat) (s : Cpu) : Option Cpu :=
  match s.fetch with
  | none => none
  | some (none, s') => some s'
  | some (some instr, s') =>
    match instr.opcode with
    | Opcode.Lodsb | Opcode.Lodsw | Opcode.Stosb | Opcode.Stosw
    | Opcode.Movsb | Opcode.Movsw => Cpu.rep_loop exec fuel instr s'
    | Opcode.Cmpsw | Opcode.Cmpsb | Opcode.Scasw | Opcode.Scasb =>
      Cpu.repe exec fuel instr s'
    | _ => exec instr s'

/-- `Cpu::repne`. -/
def Cpu.repne (exec : Instruction → Cpu → Option Cpu) (fuel : Nat) (s : Cpu) : Option Cpu :=
  match s.fetch with
  | none => none
  | some (none, s') => some s'
  | some (some instr, s') =>
    match instr.opcode with
    | Opcode.Cmpsw | Opcode.Cmpsb | Opcode.Scasw | Opcode.Scasb =>
      Cpu.repne_loop exec fuel instr s'
    | _ => exec instr s'

/-- The non-prefix dispatch arms of `Cpu::execute` (everything except the four
segment-override arms, which return early in the source and are handled in
`Cpu.execute` itself).  `none` models the `todo!` arms (Wait, In, Out, Lock,
Cmc) and every panic inside a handler.  `fuel` bounds the recursion through
REP/REPNE. -/
def Cpu.execArm (exec : Instruction → Cpu → Option Cpu) (fuel : Nat) (inst : Instruction) (s : Cpu) : Option Cpu :=
  match inst.opcode with
  | Opcode.Or => s.bit_op inst.dest inst.src BitOp.Or false
  | Opcode.Add => s.add inst.dest inst.src false
  | Opcode.Adc => s.add inst.dest inst.src true
  | Opcode.Sbb => s.sub inst.dest inst.src true false
  | Opcode.Sub => s.sub inst.dest inst.src false false
  | Opcode.Cmp => s.sub inst.dest inst.src false true
  | Opcode.PushEs => some (s.push s.regs.es)
  | Opcode.PushCs => some (s.push s.regs.cs)
  | Opcode.PopEs =>
    match s.pop with
    | none => none
    | some (v, s1) => some { s1 with regs := { s1.regs with es := v } }
  | Opcode.PushSs => some (s.push s.regs.ss)
  | Opcode.PopSs =>
    match s.pop with
    | none => none
    | some (v, s1) => some { s1 with regs := { s1.regs with ss := v } }
  | Opcode.PushDs => some (s.push s.regs.ds)
  | Opcode.PopDs =>
    match s.pop with
    | none => none
    | some (v, s1) => some { s1 with regs := { s1.regs with ds := v } }
  | Opcode.And => s.bit_op inst.dest inst.src BitOp.And false
  | Opcode.Xor => s.bit_op inst.dest inst.src BitOp.Xor false
  | Opcode.OverrideEs | Opcode.OverrideCs | Opcode.OverrideSs | Opcode.OverrideDs => none
  | Opcode.Daa => some s.daa
  | Opcode.Aaa => some s.aaa
  | Opcode.Das => some s.das
  | Opcode.Aas => some s.aas
  | Opcode.IncAx => s.inc (Operand.Reg16 0)
  | Opcode.IncCx => s.inc (Operand.Reg16 1)
  | Opcode.IncBx => s.inc (Operand.Reg16 2)
  | Opcode.IncDx => s.inc (Operand.Reg16 3)
  | Opcode.IncSp => s.inc (Operand.Reg16 4)
  | Opcode.IncBp => s.inc (Operand.Reg16 5)
  | Opcode.IncSi => s.inc (Operand.Reg16 6)
  | Opcode.IncDi => s.inc (Operand.Reg16 7)
  | Opcode.DecAx => s.dec (Operand.Reg16 0)
  | Opcode.DecCx => s.dec (Operand.Reg16 1)
  | Opcode.DecBx => s.dec (Operand.Reg16 2)
  | Opcode.DecDx => s.dec (Operand.Reg16 3)
  | Opcode.DecSp => s.dec (Operand.Reg16 4)
  | Opcode.DecBp => s.dec (Operand.Reg16 5)
  | Opcode.DecSi => s.dec (Operand.Reg16 6)
  | Opcode.DecDi => s.dec (Operand.Reg16 7)
  | Opcode.PushAx => some (s.push s.regs.ax)
  | Opcode.PushCx => some (s.push s.regs.cx)
  | Opcode.PushBx => some (s.push s.regs.bx)
  | Opcode.PushDx => some (s.push s.regs.dx)
  | Opcode.PushSp => some (s.push s.regs.sp)
  | Opcode.PushBp => some (s.push s.regs.bp)
  | Opcode.PushSi => some (s.push s.regs.si)
  | Opcode.PushDi => some (s.push s.regs.di)
  | Opcode.PopAx =>
    match s.pop with
    | none => none
    | some (v, s1) => some { s1 with regs := { s1.regs with ax := v } }
  | Opcode.PopCx =>
    match s.pop with
    | none => none
    | some (v, s1) => some { s1 with regs := { s1.regs with cx := v } }
  | Opcode.PopBx =>
    match s.pop with
    | none => none
    | some (v, s1) => some { s1 with regs := { s1.regs with bx := v } }
  | Opcode.PopDx =>
    match s.pop with
    | none => none
    | some (v, s1) => some { s1 with regs := { s1.regs with dx := v } }
  | Opcode.PopSp =>
    match s.pop with
    | none => none
    | some (v, s1) => some { s1 with regs := { s1.regs with sp := v } }
  | Opcode.PopBp =>
    match s.pop with
    | none => none
    | some (v, s1) => some { s1 with regs := { s1.regs with bp := v } }
  | Opcode.PopSi =>
    match s.pop with
    | none => none
    | some (v, s1) => some { s1 with regs := { s1.regs with si := v } }
  | Opcode.PopDi =>
    match s.pop with
    | none => none
    | some (v, s1) => some { s1 with regs := { s1.regs with di := v } }
  | Opcode.Jo =>
    match inst.dest with
    | Operand.Imm8 i => some (if Flags.of s.regs.flags then s.adjust_ip_short i else s)
    | _ => some s
  | Opcode.Jno =>
    match inst.dest with
    | Operand.Imm8 i => some (if !Flags.of s.regs.flags then s.adjust_ip_short i else s)
    | _ => some s
  | Opcode.Jb =>
    match inst.dest with
    | Operand.Imm8 i => some (if Flags.cf s.regs.flags then s.adjust_ip_short i else s)
    | _ => some s
  | Opcode.Jnb =>
    match inst.dest with
    | Operand.Imm8 i => some (if !Flags.cf s.regs.flags then s.adjust_ip_short i else s)
    | _ => some s
  | Opcode.Jz =>
    match inst.dest with
    | Operand.Imm8 i => some (if Flags.zf s.regs.flags then s.adjust_ip_short i else s)
    | _ => some s
  | Opcode.Jnz =>
    match inst.dest with
    | Operand.Imm8 i => some (if !Flags.zf s.regs.flags then s.adjust_ip_short i else s)
    | _ => some s
  | Opcode.Jbe =>
    match inst.dest with
    | Operand.Imm8 i =>
      some (if Flags.cf s.regs.flags || Flags.zf s.regs.flags then s.adjust_ip_short i else s)
    | _ => some s
  | Opcode.Jnbe =>
    match inst.dest with
    | Operand.Imm8 i =>
      some (if !Flags.cf s.regs.flags && !Flags.zf s.regs.flags then s.adjust_ip_short i else s)
    | _ => some s
  | Opcode.Js =>
    match inst.dest with
    | Operand.Imm8 i => some (if Flags.sf s.regs.flags then s.adjust_ip_short i else s)
    | _ => some s
  | Opcode.Jns =>
    match inst.dest with
    | Operand.Imm8 i => some (if !Flags.sf s.regs.flags then s.adjust_ip_short i else s)
    | _ => some s
  | Opcode.Jp =>
    match inst.dest with
    | Operand.Imm8 i => some (if Flags.pf s.regs.flags then s.adjust_ip_short i else s)
    | _ => some s
  | Opcode.Jnp =>
    match inst.dest with
    | Operand.Imm8 i => some (if !Flags.pf s.regs.flags then s.adjust_ip_short i else s)
    | _ => some s
  | Opcode.Jl =>
    match inst.dest with
    | Operand.Imm8 i =>
      some (if Flags.sf s.regs.flags != Flags.of s.regs.flags then s.adjust_ip_short i else s)
    | _ => some s
  | Opcode.Jnl =>
    match inst.dest with
    | Operand.Imm8 i =>
      some (if Flags.sf s.regs.flags == Flags.of s.regs.flags then s.adjust_ip_short i else s)
    | _ => some s
  | Opcode.Jle =>
    match inst.dest with
    | Operand.Imm8 i =>
      some (if (Flags.sf s.regs.flags != Flags.of s.regs.flags) || Flags.zf s.regs.flags
            then s.adjust_ip_short i else s)
    | _ => some s
  | Opcode.Jnle =>
    match inst.dest with
    | Operand.Imm8 i =>
      some (if (Flags.sf s.regs.flags == Flags.of s.regs.flags) || !Flags.zf s.regs.flags
            then s.adjust_ip_short i else s)
    | _ => some s
  | Opcode.Test => s.bit_op inst.dest inst.src BitOp.And true
  | Opcode.Xchg => s.exchg inst
  | Opcode.Mov => s.mov inst
  | Opcode.Lea => s.lea inst
  | Opcode.Pop => s.pop2 inst
  | Opcode.Push => s.push_mem inst
  | Opcode.Cbw => some s.cbw
  | Opcode.Cwd => some s.cwd
  | Opcode.CallFar => s.call_far inst
  | Opcode.Wait => none
  | Opcode.Pushf => some s.pushf
  | Opcode.Popf => s.popf
  | Opcode.Lahf => some s.lahf
  | Opcode.Sahf => some s.sahf
  | Opcode.Movsb => s.movsb
  | Opcode.Movsw => s.movsw
  | Opcode.Cmpsw => s.cmpsw
  | Opcode.Cmpsb => s.cmpsb
  | Opcode.Stosb => some s.stosb
  | Opcode.Lodsb => s.lodsb
  | Opcode.Scasb => s.scasb
  | Opcode.Stosw => some s.stosw
  | Opcode.Lodsw => s.lodsw
  | Opcode.Scasw => s.scasw
  | Opcode.Ret => s.ret inst
  | Opcode.Retf => s.retf inst
  | Opcode.Les => s.les inst
  | Opcode.Lds => s.lds inst
  | Opcode.Int => s.int inst
  | Opcode.Into => s.into
  | Opcode.Iret => s.iret
  | Opcode.Rol => s.rotate inst true
  | Opcode.Ror => s.rotate inst false
  | Opcode.Rcl => s.rotate_cf inst true
  | Opcode.Rcr => s.rotate_cf inst false
  | Opcode.Shl => s.shift inst true
  | Opcode.Shr => s.shift inst false
  | Opcode.Sar => s.shalr inst
  | Opcode.Aad => some s.aad
  | Opcode.Aam => some s.aam
  | Opcode.Xlat => s.xlat
  | Opcode.Loop => s.loopp inst
  | Opcode.Loope => s.loope inst
  | Opcode.Loopne => s.loopne inst
  | Opcode.Jcxz => s.jcxz inst
  | Opcode.In => none
  | Opcode.Out => none
  | Opcode.Lock => none
  | Opcode.Rep => Cpu.rep exec fuel s
  | Opcode.Repne => Cpu.repne exec fuel s
  | Opcode.Hlt => some s.hlt
  | Opcode.Cmc => none
  | Opcode.CallNear => s.call_near inst
  | Opcode.JmpNear => s.jmp_near inst
  | Opcode.JmpFar => s.jmp_far inst
  | Opcode.Not => s.not inst
  | Opcode.Neg => s.neg inst
  | Opcode.Mul => s.mul inst
  | Opcode.Imul => s.imul inst
  | Opcode.Div => s.div inst
  | Opcode.Idiv => s.idiv inst
  | Opcode.Clc => some { s with regs := { s.regs with flags := Flags.clear_cf s.regs.flags } }
  | Opcode.Stc => some { s with regs := { s.regs with flags := Flags.set_cf s.regs.flags } }
  | Opcode.Cli => some { s with regs := { s.regs with flags := Flags.clear_if s.regs.flags } }
  | Opcode.Sti => some { s with regs := { s.regs with flags := Flags.set_if s.regs.flags } }
  | Opcode.Cld => some { s with regs := { s.regs with flags := Flags.clear_df s.regs.flags } }
  | Opcode.Std => some { s with regs := { s.regs with flags := Flags.set_df s.regs.flags } }
  | Opcode.Inc => s.inc inst.dest

/-- The segment selected by a segment-override prefix opcode, if any.  Mirrors
the four early-return arms of `Cpu::execute`. -/
def overrideSegOf : Opcode → Option Segment
  | Opcode.OverrideEs => some Segment.Es
  | Opcode.OverrideCs => some Segment.Cs
  | Opcode.OverrideSs => some Segment.Ss
  | Opcode.OverrideDs => some Segment.Ds
  | _ => none

/-- `Cpu::execute`.  The four segment-override arms (factored through
`overrideSegOf`) set the override and return early (skipping the trailing
`self.seg_override = None`); every other arm runs its handler and then clears
the override, exactly as in the source. -/
def Cpu.execute : Nat → Instruction → Cpu → Option Cpu
  | 0, _, _ => none
  | fuel + 1, inst, s =>
    match overrideSegOf inst.opcode with
    | some seg => some { s with seg_override := some seg }
    | none =>
      match Cpu.execArm (Cpu.execute fuel) fuel inst s with
      | none => none
      | some s' => some { s' with seg_override := none }

/-- `Cpu::fire`: the run loop — fetch until end-of-program, executing each
decoded instruction.  `fuel` bounds the number of steps. -/
def Cpu.fire (fuel : Nat) (s : Cpu) : Option Cpu :=
  match fuel with
  | 0 => none
  | fuel' + 1 =>
    match s.fetch with
    | none => none
    | some (none, s') => some s'
    | some (some i, s') =>
      match Cpu.execute fuel' i s' with
      | none => none
      | some s2 => Cpu.fire fuel' s2

/-- The write loop of `Cpu::load_code_vec` (stops at position 1024). -/
def Cpu.load_loop (s : Cpu) : List Nat → Cpu
  | [] => s
  | b :: rest =>
    if s.mem.pos < 1024 then Cpu.load_loop { s with mem := s.mem.write_u8 b } rest
    else s

/-- `Cpu::load_code_vec`: loads up to 1024 bytes of program at `CS:0000` and
records the program size. -/
def Cpu.load_code_vec (s : Cpu) (code : List Nat) : Cpu :=
  let s1 := { s with mem := s.mem.seek_to (s.code_addr 0) }
  let s2 := Cpu.load_loop s1 code
  { s2 with prog_size := s2.mem.pos }

/-- A memory preloaded with the given bytes, cursor at 0 (as after
`Mem::new` followed by writes and a seek to 0). -/
def memOf (l : List Nat) : Mem := { pos := 0, len := l.length, data := fun i => l.getD i 0 }

/-- Replaces the CF bit of a machine's FLAGS word with the CF bit of `oldf`.
Used to compare INC/DEC with ADD/SUB-by-1. -/
def restore_cf (oldf : Nat) (c : Cpu) : Cpu :=
  { c with regs := { c.regs with flags := (c.regs.flags &&& 0xfffe) ||| (oldf &&& 1) } }

/-- The operand shapes INC/DEC accept (everything except immediates and
segment registers, whose arms panic in the source). -/
def isWritableDest : Operand → Bool
  | Operand.Mem16 _ _ => true
  | Operand.Mem8 _ _ => true
  | Operand.Reg8 _ => true
  | Operand.Reg16 _ => true
  | _ => false

/-- State for the C1 check: AL = 0x80, everything else as after reset. -/
def wsAdd80 : Cpu := { Cpu.init with regs := { Cpu.init.regs with ax := 0x80 } }

/-- State for the C1 SUB check: AL = 0, CL = 0xFF. -/
def wsSub0 : Cpu := { Cpu.init with regs := { Cpu.init.regs with ax := 0, cx := 0xff } }

/-- State for the C2 8-bit check: AX = 0x0102 (AH = 1, AL = 2), CL = 2. -/
def wsDiv8 : Cpu := { Cpu.init with regs := { Cpu.init.regs with ax := 0x0102, cx := 2 } }

/-- State for the C2 16-bit check: DX:AX = 0x10000, CX = 2. -/
def wsDiv16 : Cpu := { Cpu.init with regs := { Cpu.init.regs with ax := 0, dx := 1, cx := 2 } }

/-- State for the C3 check: AX = 5, CL = 0 (zero divisor). -/
def wsDivZ : Cpu := { Cpu.init with regs := { Cpu.init.regs with ax := 5, cx := 0 } }

/-- State for the C3 overflow check: AL = 0x80 (-128), CL = 0xFF (-1). -/
def wsIdivOvf : Cpu := { Cpu.init with regs := { Cpu.init.regs with ax := 0x80, cx := 0xff } }

/-- State for the C4 MOVSB check: DF = 0, SI = 0, DI = 5, flat segments. -/
def wsMovs : Cpu :=
  { Cpu.init with mem := memOf [7, 8, 9, 10, 11, 12, 13, 14]
                  regs := { Cpu.init.regs with si := 0, di := 5, es := 0, ds := 0, cs := 0 } }

/-- State for the C4 CMPSW check: DF = 0, SI = 0, DI = 6, flat segments. -/
def wsCmpsw : Cpu :=
  { Cpu.init with mem := memOf [7, 8, 9, 10, 11, 12, 13, 14]
                  regs := { Cpu.init.regs with si := 0, di := 6, es := 0, ds := 0, cs := 0 } }

/-- State for the C5 check: BX = SI = 0, DS = 0, next stream byte 0xFF. -/
def wsDisp : Cpu :=
  { Cpu.init with mem := memOf [0xff]
                  regs := { Cpu.init.regs with bx := 0, si := 0, ds := 0 } }

/-- State for the C6 check: DS = 0xFFFF, so DS:0x100 exceeds 2^20. -/
def wsEa : Cpu := { Cpu.init with regs := { Cpu.init.regs with ds := 0xffff } }

/-- State for the C6 mod/reg/rm check: DS = 0xFFFF and BX = 0x100. -/
def wsEaBx : Cpu := { Cpu.init with regs := { Cpu.init.regs with ds := 0xffff, bx := 0x100 } }

/-- State for the C10 check: AX = 0x4142 (AH = 0x41, AL = 0x42), byte 0x41 at
ES:DI = 0. -/
def wsScas : Cpu :=
  { Cpu.init with mem := memOf [0x41]
                  regs := { Cpu.init.regs with ax := 0x4142, di := 0, es := 0 } }

/-- State for the C8 witness: AX = 0x00FF and CF = 1, so INC AX crosses a
carry boundary while CF must stay set. -/
def wsInc : Cpu :=
  { Cpu.init with regs := { Cpu.init.regs with ax := 0x00ff, flags := 1 } }

/-- The segment-override prefix instruction used in the C7 witness. -/
def ovEsInstr : Instruction := ⟨Opcode.OverrideEs, Operand.Reg8 0, Operand.Imm8 0⟩

/-- The CLC instruction as decoded by the source (group 62, tail 0). -/
def clcInstr : Instruction := ⟨Opcode.Clc, Operand.Reg8 0, Operand.Reg16 2⟩

/-- The DIV r/m8 instruction with CL as operand, as decoded from group 61. -/
def divClInstr : Instruction := ⟨Opcode.Div, Operand.Reg8 1, Operand.Imm8 0⟩

/-- The DIV r/m16 instruction with CX as operand. -/
def divCxInstr : Instruction := ⟨Opcode.Div, Operand.Reg16 1, Operand.Imm8 0⟩

/-- The IDIV r/m8 instruction with CL as operand. -/
def idivClInstr : Instruction := ⟨Opcode.Idiv, Operand.Reg8 1, Operand.Imm8 0⟩

/-- C1, the flag projection observed: (ZF, SF, PF, stored AL). -/
def flagView (s : Cpu) : Bool × Bool × Bool × Nat :=
  (Flags.zf s.regs.flags, Flags.sf s.regs.flags, Flags.pf s.regs.flags, s.regs.get_al)


/-- `C1` -- the emulator's result of `ADD AL, AL` with AL = 0x80. -/
theorem c1_add8_zf_sf_see_bit8 :
    (Cpu.add wsAdd80 (Operand.Reg8 0) (Operand.Reg8 0) false).map flagView
      = some (false, true, true, 0)
    ∧ (0x80 + 0x80) % 256 = 0
    ∧ Nat.testBit ((0x80 + 0x80) % 256) 7 = false
    ∧ (Cpu.sub wsSub0 (Operand.Reg8 0) (Operand.Reg8 1) false false).map flagView
      = some (false, true, false, 1)
    ∧ Nat.testBit (sub8 0 0xff) 7 = false := by decide

/-- `C2` -- DIV r/m8 divides AL (not AX) and DIV r/m16 divides AX (not DX:AX):
with AX = 0x0102 and CL = 2 the 8086 result would be AX = 0x0081, but the code
computes AL / 2 = 1; with DX:AX = 0x10000 and CX = 2 the 8086 result would be
AX = 0x8000, but the code computes AX / 2 = 0. -/
theorem c2_div_divides_al_not_ax :
    (Cpu.div wsDiv8 divClInstr).map (fun s => s.regs.ax) = some 1
    ∧ 0x0102 / 2 = 0x81
    ∧ (Cpu.div wsDiv16 divCxInstr).map (fun s => (s.regs.ax, s.regs.dx)) = some (0, 0)
    ∧ 0x10000 / 2 = 0x8000 := by decide

/-- `C3` -- a zero divisor makes `div` (and the whole `execute`) return `none`
(modelling the Rust `wrapping_div` panic): the halt flag is never set and the
machine does not reach a Halted state.  An overflowing IDIV (-128 / -1) does
not raise any divide error either: it wraps and continues with halt = false. -/
theorem c3_divide_error_is_panic_not_halt :
    (Cpu.div wsDivZ divClInstr).isNone = true
    ∧ (Cpu.execute 1 divClInstr wsDivZ).isNone = true
    ∧ (Cpu.idiv wsIdivOvf idivClInstr).map (fun s => (s.halt, s.regs.get_al))
      = some (false, 0x80)
    ∧ (Cpu.execute 1 idivClInstr wsIdivOvf).map (fun s => s.halt) = some false
    ∧ wsDivZ.halt = false := by decide

/-- `C4` -- MOVSB with DF = 0, SI = 0, DI = 5 leaves SI = 7 (the source sets
SI from the freshly incremented DI), not SI = 1 as an independent update
would; CMPSW advances DI by 1 (not 2) and sets SI from it. -/
theorem c4_string_si_di_conflated :
    (Cpu.movsb wsMovs).map (fun s => (s.regs.si, s.regs.di)) = some (7, 6)
    ∧ some ((7 : Nat), (6 : Nat)) ≠ some (add16 0 1, add16 5 1)
    ∧ (Cpu.cmpsw wsCmpsw).map (fun s => (s.regs.si, s.regs.di)) = some (8, 7)
    ∧ some ((8 : Nat), (7 : Nat)) ≠ some (add16 0 2, add16 6 2) := by decide

/-- `C5` -- with mod = 1, rm = 0, displacement byte 0xFF and BX = SI = 0 the
resolved offset is 0x00FF (zero-extension via `as u16`), not the 0xFFFF that
sign-extension would give. -/
theorem c5_disp8_zero_extended :
    (Cpu.calc_op_displacement wsDisp 0 0x40).map (fun p => p.1)
      = some (Operand.Mem8 255 255)
    ∧ sx8_16 0xff = 0xffff
    ∧ add16 (add16 0 0) (sx8_16 0xff) = 0xffff
    ∧ (255 : Nat) ≠ 0xffff := by decide

/-- `C6` -- `Cpu::ea` (used for every mod/reg/rm memory operand through
`get_segment_offset`) does not mask to 20 bits: with DS = 0xFFFF the address
of DS:0x100 is 0x1000F0 which is ≥ 2^20, while the masked helpers
(`data_addr`) yield 0xF0.  The unmasked address flows into a decoded memory
operand. -/
theorem c6_ea_unmasked :
    Cpu.ea wsEa Segment.Ds 0x100 = 0x1000f0
    ∧ 2 ^ 20 ≤ 0x1000f0
    ∧ Cpu.get_segment_offset wsEa Segment.Ds 0x100 = 0x1000f0
    ∧ Cpu.data_addr wsEa 0x100 = 0xf0
    ∧ (Cpu.calc_op_displacement wsEaBx 0 0x07).map (fun p => p.1)
      = some (Operand.Mem8 0x1000f0 0x100) := by decide

/-- C7: the segment-override lifecycle.  (1) Executing an override prefix sets
the pending override (and nothing clears it in that step); (2) effective-address
resolution via `get_segment_offset` uses the override segment in place of the
default; (3) executing any non-prefix instruction ends with the override
cleared to `none`. -/
theorem c7_seg_override_lifecycle :
    (∀ (fuel : Nat) (i : Instruction) (s : Cpu) (seg : Segment),
        overrideSegOf i.opcode = some seg →
        Cpu.execute (fuel + 1) i s = some { s with seg_override := some seg })
    ∧ (∀ (s : Cpu) (seg ov : Segment) (offt : Nat),
        s.seg_override = some ov →
        Cpu.get_segment_offset s seg offt = Cpu.ea s ov offt)
    ∧ (∀ (fuel : Nat) (i : Instruction) (s s' : Cpu),
        overrideSegOf i.opcode = none →
        Cpu.execute fuel i s = some s' → s'.seg_override = none) := by
  refine ⟨?_, ?_, ?_⟩
  · intro fuel i s seg h
    simp only [Cpu.execute, h]
  · intro s seg ov offt h
    simp only [Cpu.get_segment_offset, h]
  · intro fuel i s s' h he
    cases fuel with
    | zero => simp [Cpu.execute] at he
    | succ n =>
      simp only [Cpu.execute, h] at he
      split at he
      · exact Option.noConfusion he
      · injection he with h2
        rw [← h2]

/-- Witness for C7 at concrete inputs: ES-override prefix on the initial
machine, then a CLC instruction consuming the override. -/
theorem c7_seg_override_lifecycle_witness :
    Cpu.execute 5 ovEsInstr Cpu.init = some { Cpu.init with seg_override := some Segment.Es }
    ∧ Cpu.get_segment_offset { Cpu.init with seg_override := some Segment.Es } Segment.Ds 3
        = Cpu.ea { Cpu.init with seg_override := some Segment.Es } Segment.Es 3
    ∧ ((Cpu.execute 5 clcInstr { Cpu.init with seg_override := some Segment.Es }).map
          (fun t => t.seg_override)) = some none := by
  refine ⟨?_, ?_, ?_⟩
  · exact c7_seg_override_lifecycle.1 4 ovEsInstr Cpu.init Segment.Es rfl
  · exact c7_seg_override_lifecycle.2.1 _ Segment.Ds Segment.Es 3 rfl
  · cases hh : Cpu.execute 5 clcInstr { Cpu.init with seg_override := some Segment.Es } with
    | none => exact absurd (congrArg Option.isNone hh) (by decide)
    | some t =>
      simp only [Option.map_some']
      exact congrArg some (c7_seg_override_lifecycle.2.2 5 clcInstr _ t rfl hh)

set_option maxRecDepth 8192 in
/-- C9: PUSH of a 16-bit value followed by POP returns the pushed value and
restores SP to its pre-PUSH value. -/
theorem c9_push_pop_roundtrip (s : Cpu) (x : Nat) (hx : x < 65536)
    (hs : s.regs.sp < 65536) :
    (Cpu.pop (Cpu.push s x)).map (fun p => (p.1, p.2.regs.sp)) = some (x, s.regs.sp) := by
  simp only [Cpu.push]
  simp only [Cpu.write_mem_u16]
  simp only [Cpu.pop]
  simp only [Cpu.read_mem_u16]
  simp only [Mem.seek_to, Mem.write_u16, Mem.read_u16]
  simp only [Cpu.stack_addr]
  rw [if_pos (Nat.le_max_right _ _)]
  simp only [Option.map_some']
  rw [Option.some.injEq, Prod.mk.injEq]
  refine ⟨?_, ?_⟩
  · split_ifs <;> omega
  · simp only [add16, sub16]
    omega

/-- Witness for C9: a concrete push/pop on the initial machine with SP = 16. -/
theorem c9_push_pop_roundtrip_witness :
    0x1234 < 65536 ∧
    (Cpu.pop (Cpu.push { Cpu.init with regs := { Cpu.init.regs with sp := 16 } } 0x1234)).map
        (fun p => (p.1, p.2.regs.sp)) = some (0x1234, 16) :=
  ⟨by decide, c9_push_pop_roundtrip _ 0x1234 (by decide) (by decide)⟩

theorem single_bit_ne (y i : Nat) : (y &&& 2^i != 0) = y.testBit i := by
  rw [Nat.and_two_pow]
  cases h : y.testBit i <;> simp [h]

theorem and64_ne (y : Nat) : (y &&& 64 != 0) = y.testBit 6 :=
  single_bit_ne y 6

theorem and_one_ne (y : Nat) : (y &&& 1 != 0) = y.testBit 0 :=
  single_bit_ne y 0

theorem zf_scasb_flags (fl a b : Nat) :
    Flags.zf (Cpu.scasb_flags fl a b) = (sub8 a b == 0) := by
  simp only [Cpu.scasb_flags, Flags.zf, Flags.set_af, Flags.set_pf, Flags.set_zf, Flags.set_of,
    Flags.set_cf, Flags.set_sf, Flags.clear_arith, Flags.clear_pf, Flags.clear_of,
    Flags.clear_zf, Flags.clear_sf, Flags.clear_cf, Flags.clear_af]
  rw [and64_ne]
  simp only [Nat.testBit_lor, Nat.testBit_land, apply_ite (fun n : Nat => Nat.testBit n 6)]
  generalize Nat.testBit fl 6 = c
  generalize (sub8 a b == 0) = z
  generalize Cpu.aux_sub a b = b1
  generalize even_parity (w8 (sub8 a b)) = b2
  generalize ovfSubI8 a b = b4
  generalize ovfSubU8 a b = b5
  generalize (sub8 a b &&& 128 != 0) = b6
  revert c z b1 b2 b4 b5 b6
  decide

theorem cf_scasb_flags (fl a b : Nat) :
    Flags.cf (Cpu.scasb_flags fl a b) = ovfSubU8 a b := by
  simp only [Cpu.scasb_flags, Flags.cf, Flags.set_af, Flags.set_pf, Flags.set_zf, Flags.set_of,
    Flags.set_cf, Flags.set_sf, Flags.clear_arith, Flags.clear_pf, Flags.clear_of,
    Flags.clear_zf, Flags.clear_sf, Flags.clear_cf, Flags.clear_af]
  rw [and_one_ne]
  simp only [Nat.testBit_lor, Nat.testBit_land, apply_ite (fun n : Nat => Nat.testBit n 0)]
  generalize Nat.testBit fl 0 = c
  generalize (sub8 a b == 0) = z
  generalize Cpu.aux_sub a b = b1
  generalize even_parity (w8 (sub8 a b)) = b2
  generalize ovfSubI8 a b = b4
  generalize ovfSubU8 a b = b5
  generalize (sub8 a b &&& 128 != 0) = b6
  revert c z b1 b2 b4 b5 b6
  decide

theorem read_mem_u8_spec (s : Cpu) (p v : Nat) (t : Cpu)
    (h : Cpu.read_mem_u8 s p = some (v, t)) : t.regs = s.regs ∧ v = s.mem.data p := by
  simp only [Cpu.read_mem_u8, Mem.seek_to, Mem.read_u8] at h
  split at h
  next => exact Option.noConfusion h
  next o mm hh =>
    injection h with h2
    split at hh
    next =>
      injection hh with hh2
      have hv : o = v := congrArg Prod.fst h2
      have ho : s.mem.data p = o := congrArg Prod.fst hh2
      exact ⟨(congrArg (fun q => (Prod.snd q).regs) h2).symm, hv.symm.trans ho.symm⟩
    next => exact Option.noConfusion hh

theorem read_mem_u8_set_regs (s : Cpu) (r : Registers) (p : Nat) :
    Cpu.read_mem_u8 { s with regs := r } p
      = (Cpu.read_mem_u8 s p).map (fun q => (q.1, { q.2 with regs := r })) := by
  simp only [Cpu.read_mem_u8, Mem.seek_to, Mem.read_u8]
  split <;> rfl

theorem get_ah_set_al_pre (a v : Nat) :
    ((a &&& 65280 ||| v % 256) >>> 8) % 256 = (a >>> 8) % 256 := by
  have e : (256 : Nat) = 2 ^ 8 := by norm_num
  rw [e]
  apply Nat.eq_of_testBit_eq
  intro i
  simp only [Nat.testBit_mod_two_pow, Nat.testBit_shiftRight, Nat.testBit_lor, Nat.testBit_land]
  by_cases h : i < 8
  · have hm : Nat.testBit 65280 (8 + i) = true := by
      interval_cases i <;> rfl
    have h8 : decide (8 + i < 8) = false := decide_eq_false (by omega)
    rw [hm, h8]
    simp
  · have hd : decide (i < 8) = false := decide_eq_false h
    rw [hd]
    simp

theorem get_ah_set_al (r : Registers) (v : Nat) :
    (Registers.set_al r v).get_ah = r.get_ah := by
  simp only [Registers.set_al, Registers.get_ah]
  exact get_ah_set_al_pre r.ax v

/-- C10: SCASB compares the byte at ES:DI against AH: (1) whenever SCASB
succeeds, every register except DI keeps its value (in particular AX, so the
accumulator is not written), ZF is set exactly when the byte minus AH is zero
and CF exactly when the unsigned 8-bit subtract of AH from the byte borrows;
(2) replacing AL (keeping AH) commutes with SCASB, so AL is never read. -/
theorem c10_scasb_compares_ah :
    (∀ (s s' : Cpu), Cpu.scasb s = some s' →
        s'.regs.ax = s.regs.ax ∧ s'.regs.bx = s.regs.bx ∧ s'.regs.cx = s.regs.cx ∧
        s'.regs.dx = s.regs.dx ∧ s'.regs.si = s.regs.si ∧ s'.regs.sp = s.regs.sp ∧
        s'.regs.bp = s.regs.bp ∧ s'.regs.es = s.regs.es ∧ s'.regs.ds = s.regs.ds ∧
        s'.regs.cs = s.regs.cs ∧ s'.regs.ss = s.regs.ss ∧ s'.regs.ip = s.regs.ip ∧
        Flags.zf s'.regs.flags
          = (sub8 (s.mem.data (s.extra_addr s.regs.di)) s.regs.get_ah == 0) ∧
        Flags.cf s'.regs.flags
          = ovfSubU8 (s.mem.data (s.extra_addr s.regs.di)) s.regs.get_ah)
    ∧ (∀ (s : Cpu) (v : Nat),
        Cpu.scasb { s with regs := s.regs.set_al v }
          = (Cpu.scasb s).map (fun t => { t with regs := t.regs.set_al v })) := by
  constructor
  · intro s s' h
    simp only [Cpu.scasb] at h
    split at h
    next => exact Option.noConfusion h
    next a m heq =>
      obtain ⟨hregs, ha⟩ := read_mem_u8_spec _ _ _ _ heq
      subst ha
      rw [← apply_ite some] at h
      injection h with h2
      subst h2
      rw [hregs]
      refine ⟨?_, ?_, ?_, ?_, ?_, ?_, ?_, ?_, ?_, ?_, ?_, ?_, ?_, ?_⟩
      · simp only [apply_ite (fun t : Cpu => t.regs), apply_ite (fun r : Registers => r.ax),
          ite_self]
      · simp only [apply_ite (fun t : Cpu => t.regs), apply_ite (fun r : Registers => r.bx),
          ite_self]
      · simp only [apply_ite (fun t : Cpu => t.regs), apply_ite (fun r : Registers => r.cx),
          ite_self]
      · simp only [apply_ite (fun t : Cpu => t.regs), apply_ite (fun r : Registers => r.dx),
          ite_self]
      · simp only [apply_ite (fun t : Cpu => t.regs), apply_ite (fun r : Registers => r.si),
          ite_self]
      · simp only [apply_ite (fun t : Cpu => t.regs), apply_ite (fun r : Registers => r.sp),
          ite_self]
      · simp only [apply_ite (fun t : Cpu => t.regs), apply_ite (fun r : Registers => r.bp),
          ite_self]
      · simp only [apply_ite (fun t : Cpu => t.regs), apply_ite (fun r : Registers => r.es),
          ite_self]
      · simp only [apply_ite (fun t : Cpu => t.regs), apply_ite (fun r : Registers => r.ds),
          ite_self]
      · simp only [apply_ite (fun t : Cpu => t.regs), apply_ite (fun r : Registers => r.cs),
          ite_self]
      · simp only [apply_ite (fun t : Cpu => t.regs), apply_ite (fun r : Registers => r.ss),
          ite_self]
      · simp only [apply_ite (fun t : Cpu => t.regs), apply_ite (fun r : Registers => r.ip),
          ite_self]
      · simp only [apply_ite (fun t : Cpu => t.regs), apply_ite (fun r : Registers => r.flags),
          ite_self]
        exact zf_scasb_flags s.regs.flags (s.mem.data (s.extra_addr s.regs.di)) s.regs.get_ah
      · simp only [apply_ite (fun t : Cpu => t.regs), apply_ite (fun r : Registers => r.flags),
          ite_self]
        exact cf_scasb_flags s.regs.flags (s.mem.data (s.extra_addr s.regs.di)) s.regs.get_ah
  · intro s v
    simp only [Cpu.scasb]
    rw [show (s.regs.set_al v).di = s.regs.di from rfl]
    rw [show (fun off => Cpu.extra_addr { s with regs := s.regs.set_al v } off
          = Cpu.extra_addr s off : ∀ off : Nat, _) s.regs.di from rfl]
    rw [read_mem_u8_set_regs]
    cases hx : Cpu.read_mem_u8 s (Cpu.extra_addr s s.regs.di) with
    | none => rfl
    | some am =>
      obtain ⟨a, m⟩ := am
      obtain ⟨hregs, _⟩ := read_mem_u8_spec _ _ _ _ hx
      simp only [Option.map_some']
      rw [show ({ m with regs := s.regs.set_al v } : Cpu).regs.flags
            = (s.regs.set_al v).flags from rfl]
      rw [show (s.regs.set_al v).flags = s.regs.flags from rfl]
      rw [show ({ m with regs := s.regs.set_al v } : Cpu).regs.get_ah
            = (s.regs.set_al v).get_ah from rfl]
      rw [get_ah_set_al]
      rw [← hregs]
      split_ifs <;> rfl

/-- Witness for C10 at the concrete state `wsScas` (AX = 0x4142, byte 0x41 at
ES:DI): the compared byte equals AH so ZF is set, CF is clear, AX is
untouched; and swapping AL to 0x99 commutes with SCASB. -/
theorem c10_scasb_compares_ah_witness :
    ((Cpu.scasb wsScas).map
        (fun t => (t.regs.ax, Flags.zf t.regs.flags, Flags.cf t.regs.flags)))
      = some (0x4142, true, false)
    ∧ Cpu.scasb { wsScas with regs := wsScas.regs.set_al 0x99 }
        = (Cpu.scasb wsScas).map (fun t => { t with regs := t.regs.set_al 0x99 }) := by
  constructor
  · cases hh : Cpu.scasb wsScas with
    | none => exact absurd (congrArg Option.isNone hh) (by decide)
    | some t =>
      obtain ⟨hax, _, _, _, _, _, _, _, _, _, _, _, hzf, hcf⟩ :=
        c10_scasb_compares_ah.1 wsScas t hh
      simp only [Option.map_some']
      refine congrArg some ?_
      rw [hax, hzf, hcf]
      decide
  · exact c10_scasb_compares_ah.2 wsScas 0x99

set_option maxRecDepth 4096 in
theorem inc_add_flags8_eq (fl dest src result : Nat) :
    Cpu.inc_flags8 fl dest src result
      = (Cpu.add_flags8 fl dest src result &&& 0xfffe) ||| (fl &&& 1) := by
  simp only [Cpu.inc_flags8, Cpu.add_flags8, Flags.set_af, Flags.set_pf, Flags.set_zf,
    Flags.set_of, Flags.set_cf, Flags.set_sf, Flags.clear_arith, Flags.clear_pf,
    Flags.clear_of, Flags.clear_zf, Flags.clear_sf, Flags.clear_cf, Flags.clear_af]
  apply Nat.eq_of_testBit_eq
  intro i
  simp only [Nat.testBit_lor, Nat.testBit_land, apply_ite (fun n : Nat => Nat.testBit n i)]
  generalize Cpu.aux_add dest src = b1
  generalize even_parity (w8 result) = b2
  generalize (result == 0) = b3
  generalize ovfAddI8 dest src = b4
  generalize ovfAddU8 dest src = b5
  generalize (result &&& 65408 != 0) = b6
  generalize Nat.testBit fl i = c
  by_cases h : i < 16
  · revert b1 b2 b3 b4 b5 b6 c
    interval_cases i <;> decide
  · have h16 : (16:Nat) ≤ i := Nat.le_of_not_lt h
    have hp : (65536:Nat) ≤ 2^i := by
      calc (65536:Nat) = 2^16 := by norm_num
        _ ≤ 2^i := Nat.pow_le_pow_right (by norm_num) h16
    have hM : ∀ M : Nat, M < 65536 → Nat.testBit M i = false :=
      fun M hMlt => Nat.testBit_lt_two_pow (lt_of_lt_of_le hMlt hp)
    simp only [hM 32751 (by norm_num), hM 65407 (by norm_num), hM 65471 (by norm_num),
      hM 61439 (by norm_num), hM 65531 (by norm_num), hM 65534 (by norm_num),
      hM 16 (by norm_num), hM 4 (by norm_num), hM 64 (by norm_num), hM 2048 (by norm_num),
      hM 1 (by norm_num), hM 128 (by norm_num)]
    simp
set_option maxRecDepth 4096 in
theorem inc_add_flags16_eq (fl dest src result : Nat) :
    Cpu.inc_flags16 fl dest src result
      = (Cpu.add_flags16 fl dest src result &&& 0xfffe) ||| (fl &&& 1) := by
  simp only [Cpu.inc_flags16, Cpu.add_flags16, Flags.set_af, Flags.set_pf, Flags.set_zf,
    Flags.set_of, Flags.set_cf, Flags.set_sf, Flags.clear_arith, Flags.clear_pf,
    Flags.clear_of, Flags.clear_zf, Flags.clear_sf, Flags.clear_cf, Flags.clear_af]
  apply Nat.eq_of_testBit_eq
  intro i
  simp only [Nat.testBit_lor, Nat.testBit_land, apply_ite (fun n : Nat => Nat.testBit n i)]
  generalize Cpu.aux_add dest src = b1
  generalize even_parity (w8 result) = b2
  generalize (result == 0) = b3
  generalize ovfAddI16 dest src = b4
  generalize ovfAddU16 dest src = b5
  generalize (result &&& 32768 != 0) = b6
  generalize Nat.testBit fl i = c
  by_cases h : i < 16
  · revert b1 b2 b3 b4 b5 b6 c
    interval_cases i <;> decide
  · have h16 : (16:Nat) ≤ i := Nat.le_of_not_lt h
    have hp : (65536:Nat) ≤ 2^i := by
      calc (65536:Nat) = 2^16 := by norm_num
        _ ≤ 2^i := Nat.pow_le_pow_right (by norm_num) h16
    have hM : ∀ M : Nat, M < 65536 → Nat.testBit M i = false :=
      fun M hMlt => Nat.testBit_lt_two_pow (lt_of_lt_of_le hMlt hp)
    simp only [hM 32751 (by norm_num), hM 65407 (by norm_num), hM 65471 (by norm_num),
      hM 61439 (by norm_num), hM 65531 (by norm_num), hM 65534 (by norm_num),
      hM 16 (by norm_num), hM 4 (by norm_num), hM 64 (by norm_num), hM 2048 (by norm_num),
      hM 1 (by norm_num), hM 128 (by norm_num)]
    simp

set_option maxRecDepth 4096 in
theorem dec_sub_flags8_eq (fl dest src result : Nat) :
    Cpu.dec_flags8 fl dest src result
      = (Cpu.sub_flags8 fl dest src result &&& 0xfffe) ||| (fl &&& 1) := by
  simp only [Cpu.dec_flags8, Cpu.sub_flags8, Flags.set_af, Flags.set_pf, Flags.set_zf,
    Flags.set_of, Flags.set_cf, Flags.set_sf, Flags.clear_arith, Flags.clear_pf,
    Flags.clear_of, Flags.clear_zf, Flags.clear_sf, Flags.clear_cf, Flags.clear_af]
  apply Nat.eq_of_testBit_eq
  intro i
  simp only [Nat.testBit_lor, Nat.testBit_land, apply_ite (fun n : Nat => Nat.testBit n i)]
  generalize Cpu.aux_sub dest src = b1
  generalize even_parity (w8 result) = b2
  generalize (result == 0) = b3
  generalize ovfSubI8 dest src = b4
  generalize ovfSubU8 dest src = b5
  generalize (result &&& 65408 != 0) = b6
  generalize Nat.testBit fl i = c
  by_cases h : i < 16
  · revert b1 b2 b3 b4 b5 b6 c
    interval_cases i <;> decide
  · have h16 : (16:Nat) ≤ i := Nat.le_of_not_lt h
    have hp : (65536:Nat) ≤ 2^i := by
      calc (65536:Nat) = 2^16 := by norm_num
        _ ≤ 2^i := Nat.pow_le_pow_right (by norm_num) h16
    have hM : ∀ M : Nat, M < 65536 → Nat.testBit M i = false :=
      fun M hMlt => Nat.testBit_lt_two_pow (lt_of_lt_of_le hMlt hp)
    simp only [hM 32751 (by norm_num), hM 65407 (by norm_num), hM 65471 (by norm_num),
      hM 61439 (by norm_num), hM 65531 (by norm_num), hM 65534 (by norm_num),
      hM 16 (by norm_num), hM 4 (by norm_num), hM 64 (by norm_num), hM 2048 (by norm_num),
      hM 1 (by norm_num), hM 128 (by norm_num)]
    simp

set_option maxRecDepth 4096 in
theorem dec_sub_flags16_eq (fl dest src result : Nat) :
    Cpu.dec_flags16 fl dest src result
      = (Cpu.sub_flags16 fl dest src result &&& 0xfffe) ||| (fl &&& 1) := by
  simp only [Cpu.dec_flags16, Cpu.sub_flags16, Flags.set_af, Flags.set_pf, Flags.set_zf,
    Flags.set_of, Flags.set_cf, Flags.set_sf, Flags.clear_arith, Flags.clear_pf,
    Flags.clear_of, Flags.clear_zf, Flags.clear_sf, Flags.clear_cf, Flags.clear_af]
  apply Nat.eq_of_testBit_eq
  intro i
  simp only [Nat.testBit_lor, Nat.testBit_land, apply_ite (fun n : Nat => Nat.testBit n i)]
  generalize Cpu.aux_sub dest src = b1
  generalize even_parity (w8 result) = b2
  generalize (result == 0) = b3
  generalize ovfSubI16 dest src = b4
  generalize ovfSubU16 dest src = b5
  generalize (result &&& 32768 != 0) = b6
  generalize Nat.testBit fl i = c
  by_cases h : i < 16
  · revert b1 b2 b3 b4 b5 b6 c
    interval_cases i <;> decide
  · have h16 : (16:Nat) ≤ i := Nat.le_of_not_lt h
    have hp : (65536:Nat) ≤ 2^i := by
      calc (65536:Nat) = 2^16 := by norm_num
        _ ≤ 2^i := Nat.pow_le_pow_right (by norm_num) h16
    have hM : ∀ M : Nat, M < 65536 → Nat.testBit M i = false :=
      fun M hMlt => Nat.testBit_lt_two_pow (lt_of_lt_of_le hMlt hp)
    simp only [hM 32751 (by norm_num), hM 65407 (by norm_num), hM 65471 (by norm_num),
      hM 61439 (by norm_num), hM 65531 (by norm_num), hM 65534 (by norm_num),
      hM 16 (by norm_num), hM 4 (by norm_num), hM 64 (by norm_num), hM 2048 (by norm_num),
      hM 1 (by norm_num), hM 128 (by norm_num)]
    simp

theorem cf_restore (x fl : Nat) : Flags.cf ((x &&& 65534) ||| (fl &&& 1)) = Flags.cf fl := by
  simp only [Flags.cf, and_one_ne, Nat.testBit_lor, Nat.testBit_land]
  rw [show Nat.testBit 65534 0 = false from rfl, show Nat.testBit 1 0 = true from rfl]
  cases Nat.testBit fl 0 <;> cases Nat.testBit x 0 <;> rfl

theorem operand_value_regs (s : Cpu) (op : Operand) (v : Nat) (t : Cpu)
    (h : Cpu.operand_value s op = some (v, t)) : t.regs = s.regs := by
  cases op <;> simp only [Cpu.operand_value] at h
  case Mem16 i o =>
    split at h
    next => exact Option.noConfusion h
    next => injection h with h2; exact (congrArg (fun q => (Prod.snd q).regs) h2).symm
  case Mem8 i o =>
    split at h
    next => exact Option.noConfusion h
    next => injection h with h2; exact (congrArg (fun q => (Prod.snd q).regs) h2).symm
  case Reg8 i =>
    split at h
    next => exact Option.noConfusion h
    next => injection h with h2; exact (congrArg (fun q => (Prod.snd q).regs) h2).symm
  case Reg16 i =>
    split at h
    next => exact Option.noConfusion h
    next => injection h with h2; exact (congrArg (fun q => (Prod.snd q).regs) h2).symm
  case Imm8 i => injection h with h2; exact (congrArg (fun q => (Prod.snd q).regs) h2).symm
  case Imm16 i => injection h with h2; exact (congrArg (fun q => (Prod.snd q).regs) h2).symm
  case Seg i => injection h with h2; exact (congrArg (fun q => (Prod.snd q).regs) h2).symm

/-- `Cpu::inc` agrees with `Cpu::add` on the same destination and an immediate
1, except that the pre-instruction CF bit is put back in place of ADD's
computed CF. -/
theorem inc_eq_add_restore (s : Cpu) (d : Operand) :
    Cpu.inc s d = (Cpu.add s d (Operand.Imm8 1) false).map (restore_cf s.regs.flags) := by
  cases d with
  | Mem16 p o =>
    simp only [Cpu.inc, Cpu.add]
    cases hv : Cpu.operand_value s (Operand.Mem16 p o) with
    | none => rfl
    | some dv =>
      obtain ⟨dest, s1⟩ := dv
      have hr := operand_value_regs _ _ _ _ hv
      simp only [Cpu.operand_value, restore_cf, Option.map_some', if_true, Bool.false_eq_true,
        if_false]
      rw [inc_add_flags16_eq, hr]
      rfl
  | Mem8 p o =>
    simp only [Cpu.inc, Cpu.add]
    cases hv : Cpu.operand_value s (Operand.Mem8 p o) with
    | none => rfl
    | some dv =>
      obtain ⟨dest, s1⟩ := dv
      have hr := operand_value_regs _ _ _ _ hv
      simp only [Cpu.operand_value, restore_cf, Option.map_some', if_true, Bool.false_eq_true,
        if_false]
      rw [inc_add_flags8_eq, hr]
      rfl
  | Reg8 r =>
    rcases r with _|_|_|_|_|_|_|_|n <;>
      first
      | rfl
      | (simp only [Cpu.inc, Cpu.add, Cpu.operand_value, Cpu.get_reg, Cpu.set_reg, restore_cf,
           Option.map_some', if_true, Bool.false_eq_true, if_false]
         rw [inc_add_flags8_eq]
         rfl)
  | Reg16 r =>
    rcases r with _|_|_|_|_|_|_|_|n <;>
      first
      | rfl
      | (simp only [Cpu.inc, Cpu.add, Cpu.operand_value, Cpu.get_reg, Cpu.set_reg, restore_cf,
           Option.map_some', if_true, Bool.false_eq_true, if_false]
         rw [inc_add_flags16_eq]
         rfl)
  | Imm8 i => rfl
  | Imm16 i => rfl
  | Seg i => rfl

/-- `Cpu::dec` agrees with `Cpu::sub` (SUB form, not SBB/CMP) on the same
destination and an immediate 1, except that the pre-instruction CF bit is put
back in place of SUB's computed CF. -/
theorem dec_eq_sub_restore (s : Cpu) (d : Operand) :
    Cpu.dec s d = (Cpu.sub s d (Operand.Imm8 1) false false).map (restore_cf s.regs.flags) := by
  cases d with
  | Mem16 p o =>
    simp only [Cpu.dec, Cpu.sub]
    cases hv : Cpu.operand_value s (Operand.Mem16 p o) with
    | none => rfl
    | some dv =>
      obtain ⟨dest, s1⟩ := dv
      have hr := operand_value_regs _ _ _ _ hv
      simp only [Cpu.operand_value, restore_cf, Option.map_some', if_true, Bool.false_eq_true,
        if_false]
      rw [dec_sub_flags16_eq, hr]
      rfl
  | Mem8 p o =>
    simp only [Cpu.dec, Cpu.sub]
    cases hv : Cpu.operand_value s (Operand.Mem8 p o) with
    | none => rfl
    | some dv =>
      obtain ⟨dest, s1⟩ := dv
      have hr := operand_value_regs _ _ _ _ hv
      simp only [Cpu.operand_value, restore_cf, Option.map_some', if_true, Bool.false_eq_true,
        if_false]
      rw [dec_sub_flags8_eq, hr]
      rfl
  | Reg8 r =>
    rcases r with _|_|_|_|_|_|_|_|n <;>
      first
      | rfl
      | (simp only [Cpu.dec, Cpu.sub, Cpu.operand_value, Cpu.get_reg, Cpu.set_reg, restore_cf,
           Option.map_some', if_true, Bool.false_eq_true, if_false]
         rw [dec_sub_flags8_eq]
         rfl)
  | Reg16 r =>
    rcases r with _|_|_|_|_|_|_|_|n <;>
      first
      | rfl
      | (simp only [Cpu.dec, Cpu.sub, Cpu.operand_value, Cpu.get_reg, Cpu.set_reg, restore_cf,
           Option.map_some', if_true, Bool.false_eq_true, if_false]
         rw [dec_sub_flags16_eq]
         rfl)
  | Imm8 i => rfl
  | Imm16 i => rfl
  | Seg i => rfl

/-- C8: INC and DEC update the arithmetic flags exactly as ADD/SUB with an
immediate 1 would (conjunct 1, stated as an equality up to restoring the CF
bit), and on every operand and every initial flag state the CF flag after a
successful INC or DEC equals the CF flag before it (conjuncts 2 and 3). -/
theorem c8_inc_dec_preserve_cf :
    (∀ (s : Cpu) (d : Operand),
        Cpu.inc s d = (Cpu.add s d (Operand.Imm8 1) false).map (restore_cf s.regs.flags)
      ∧ Cpu.dec s d = (Cpu.sub s d (Operand.Imm8 1) false false).map (restore_cf s.regs.flags))
    ∧ (∀ (s s' : Cpu) (d : Operand), Cpu.inc s d = some s' →
        Flags.cf s'.regs.flags = Flags.cf s.regs.flags)
    ∧ (∀ (s s' : Cpu) (d : Operand), Cpu.dec s d = some s' →
        Flags.cf s'.regs.flags = Flags.cf s.regs.flags) := by
  refine ⟨fun s d => ⟨inc_eq_add_restore s d, dec_eq_sub_restore s d⟩, ?_, ?_⟩
  · intro s s' d h
    rw [inc_eq_add_restore] at h
    cases ha : Cpu.add s d (Operand.Imm8 1) false with
    | none => rw [ha] at h; exact Option.noConfusion h
    | some t =>
      rw [ha, Option.map_some'] at h
      injection h with h2
      rw [← h2]
      exact cf_restore t.regs.flags s.regs.flags
  · intro s s' d h
    rw [dec_eq_sub_restore] at h
    cases ha : Cpu.sub s d (Operand.Imm8 1) false false with
    | none => rw [ha] at h; exact Option.noConfusion h
    | some t =>
      rw [ha, Option.map_some'] at h
      injection h with h2
      rw [← h2]
      exact cf_restore t.regs.flags s.regs.flags

/-- Witness for C8 at the concrete state `wsInc` (AX = 0x00FF, CF = 1):
INC AX and DEC AX both leave CF = 1 even though the recomputed ADD/SUB carry
would clear it, and the INC result equals the restore-CF form of ADD AX, 1. -/
theorem c8_inc_dec_preserve_cf_witness :
    Cpu.inc wsInc (Operand.Reg16 0)
      = (Cpu.add wsInc (Operand.Reg16 0) (Operand.Imm8 1) false).map
          (restore_cf wsInc.regs.flags)
    ∧ (Cpu.inc wsInc (Operand.Reg16 0)).map (fun t => Flags.cf t.regs.flags)
        = some (Flags.cf wsInc.regs.flags)
    ∧ (Cpu.dec wsInc (Operand.Reg16 0)).map (fun t => Flags.cf t.regs.flags)
        = some (Flags.cf wsInc.regs.flags) := by
  refine ⟨(c8_inc_dec_preserve_cf.1 wsInc (Operand.Reg16 0)).1, ?_, ?_⟩
  · cases hh : Cpu.inc wsInc (Operand.Reg16 0) with
    | none => exact absurd (congrArg Option.isNone hh) (by decide)
    | some t =>
      simp only [Option.map_some']
      exact congrArg some (c8_inc_dec_preserve_cf.2.1 wsInc t (Operand.Reg16 0) hh)
  · cases hh : Cpu.dec wsInc (Operand.Reg16 0) with
    | none => exact absurd (congrArg Option.isNone hh) (by decide)
    | some t =>
      simp only [Option.map_some']
      exact congrArg some (c8_inc_dec_preserve_cf.2.2 wsInc t (Operand.Reg16 0) hh)
